import Mathlib

/-!
Verification of the watc compiler (a wat-to-wasm translator).

This file shallowly embeds the two Rust source files of the repository:

- src/parser.rs : a nom-based recursive-descent parser turning wat source
  text into a module tree (WatModule, Func, Export, Expr, ValType, Instr);
- src/main.rs   : the binary encoder (compile, write_magic_and_version,
  write_section, write_export, write_type, write_code, into_wasm_vec) that
  serializes a module tree into a wasm byte buffer.

Conventions of the embedding:

- Rust byte buffers (Vec of u8) become List Nat; every element produced is
  below 256.
- Rust strings and string slices become List Char; the byte view used by
  String.as_bytes and str.len is computed by an explicit UTF-8 encoder.
- Rust panics (the expect calls in compile and write_code, and the
  unimplemented macro reached for nested forms) are modelled as the error
  values of an explicit Panic type in Except; the encoder returns no bytes
  in those cases, exactly as the aborting process writes none.
- nom parsers over string slices become functions from List Char to PRes,
  where PRes.ok carries the unconsumed remainder, PRes.err is a nom Error
  (backtrackable, as no cut combinator is used in the source), and
  PRes.panic models the unimplemented macro inside the module parser
  closure.
- The only genuinely recursive grammar production (expr inside func inside
  expr) is given a Nat fuel that each descent into a nested function form
  decrements.  Every such descent first consumes at least one character, so
  the fuel chosen at the entry point, input length plus one, can never be
  exhausted; fuel zero returning an error is therefore dead code kept only
  to make the recursion structural.  Repetition combinators (many0 and
  many0_count) instead carry nom's own no-progress check, which bounds
  their iteration count by the input length, and receive that bound as
  fuel at each call site.
-/

set_option maxRecDepth 20000

/-! ## The module tree (parser.rs data types) -/

/-- parser.rs ValType: the four wasm value types.  The Rust enum fixes the
discriminants 0x7c, 0x7d, 0x7e, 0x7f in declaration order. -/
inductive ValType where
  | f64 | f32 | i64 | i32
deriving DecidableEq

/-- The u8 discriminant of a ValType (F64 = 0x7c, the rest following). -/
def ValType.code : ValType → Nat
  | .f64 => 0x7c
  | .f32 => 0x7d
  | .i64 => 0x7e
  | .i32 => 0x7f

/-- parser.rs Instr: the two recognized instructions with their opcode
discriminants. -/
inductive Instr where
  | localGet | i32Add
deriving DecidableEq

/-- The u8 discriminant of an Instr (LocalGet = 0x20, I32Add = 0x6a). -/
def Instr.code : Instr → Nat
  | .localGet => 0x20
  | .i32Add => 0x6a

/-- parser.rs ExportType: only the function kind exists, discriminant 0. -/
inductive ExportType where
  | func
deriving DecidableEq

/-- The u8 discriminant of an ExportType. -/
def ExportType.code : ExportType → Nat
  | .func => 0

/-- parser.rs Export: the string literal seen in the source (export_name),
the identifier of the exported function (ident, without its dollar sigil),
and the export kind. -/
structure Export where
  export_name : List Char
  ident : List Char
  ty : ExportType
deriving DecidableEq

mutual
/-- parser.rs Func: name (without the dollar sigil), parameters in order,
optional result type, body expressions in order. -/
inductive Func where
  | mk (name : List Char) (params : List (List Char × ValType))
       (result : Option ValType) (body : List Expr)
/-- parser.rs Expr: the four expression variants. -/
inductive Expr where
  | efunc (f : Func)
  | eexp (e : Export)
  | instr (i : Instr)
  | ident (s : List Char)
end

def Func.name : Func → List Char
  | .mk n _ _ _ => n

def Func.params : Func → List (List Char × ValType)
  | .mk _ p _ _ => p

def Func.result : Func → Option ValType
  | .mk _ _ r _ => r

def Func.body : Func → List Expr
  | .mk _ _ _ b => b

/-- parser.rs WatModule: functions and exports in declaration order. -/
structure WatModule where
  funcs : List Func
  exports : List Export

/-! ## Byte-level helpers (main.rs) -/

/-- One step of the LEB128 loop of leb128::write::unsigned, with fuel.
The fuel is only a structural-recursion device: lebU below supplies n
itself, and the loop divides by 128 each round, so fuel n is never
exhausted (for n = 0 the first round already terminates). -/
def lebUF : Nat → Nat → List Nat
  | 0, n => [n]
  | fuel + 1, n => if n < 128 then [n] else (n % 128 + 128) :: lebUF fuel (n / 128)

/-- leb128::write::unsigned: base-128 little-endian with continuation bits,
as called for every count, length and index the encoder emits. -/
def lebU (n : Nat) : List Nat := lebUF n n

/-- UTF-8 bytes of one char, matching Rust str::as_bytes on each scalar. -/
def utf8Bytes (c : Char) : List Nat :=
  let n := c.toNat
  if n < 0x80 then [n]
  else if n < 0x800 then [0xc0 + n / 0x40, 0x80 + n % 0x40]
  else if n < 0x10000 then
    [0xe0 + n / 0x1000, 0x80 + n / 0x40 % 0x40, 0x80 + n % 0x40]
  else
    [0xf0 + n / 0x40000, 0x80 + n / 0x1000 % 0x40, 0x80 + n / 0x40 % 0x40,
     0x80 + n % 0x40]

/-- Rust str::as_bytes for a string represented as its chars. -/
def strBytes : List Char → List Nat
  | [] => []
  | c :: cs => utf8Bytes c ++ strBytes cs

/-- main.rs into_wasm_vec: splice the LEB128 encoding of len in front of an
already serialized payload. -/
def into_wasm_vec (payload : List Nat) (len : Nat) : List Nat :=
  lebU len ++ payload

/-- main.rs write_magic_and_version: the 4 magic bytes backslash-zero a s m
followed by version 1_u32 in little-endian. -/
def write_magic_and_version : List Nat :=
  [0x00, 0x61, 0x73, 0x6d] ++ [0x01, 0x00, 0x00, 0x00]

/-- main.rs write_section: tag byte, LEB128 byte length, payload. -/
def write_section (tag : Nat) (bytes : List Nat) : List Nat :=
  tag :: (lebU bytes.length ++ bytes)

/-- The Rust process panics of main.rs, in Except form: the two expect
calls (messages "unknown function" and "unknown ident") and the
unimplemented macro in the catch-all arm of write_code. -/
inductive Panic where
  | unknownFunction
  | unknownIdent
  | unimplementedExpr
deriving DecidableEq

/-- main.rs write_export: length-prefixed name bytes, export-kind tag byte,
LEB128 index.  The name argument is whatever string compile chooses to pass
(it passes export.ident, see compile below). -/
def write_export (name : List Char) (ty : ExportType) (idx : Nat) : List Nat :=
  into_wasm_vec (strBytes name) (strBytes name).length ++ [ty.code] ++ lebU idx

/-- main.rs write_type: 0x60 tag, the params vector (each value-type
discriminant routed through the LEB128 writer), and, only when a result is
present, a count-1 vector holding the result discriminant; nothing is
emitted for an absent result. -/
def write_type (f : Func) : List Nat :=
  [0x60] ++
  into_wasm_vec ((f.params.map (fun p => lebU p.2.code)).flatten) f.params.length ++
  (match f.result with
   | none => []
   | some r => into_wasm_vec (lebU r.code) 1)

/-- The instruction-stream loop of main.rs write_code: opcodes are pushed
as raw bytes, bare identifiers are resolved against the parameter list by
first-match linear scan (panic "unknown ident" on failure, expressed as an
error) and emit their index in LEB128, and any other expression variant
reaches the catch-all unimplemented arm. -/
def code_exprs (params : List (List Char × ValType)) : List Expr → Except Panic (List Nat)
  | [] => .ok []
  | .instr i :: es => do
      let rest ← code_exprs params es
      .ok (i.code :: rest)
  | .ident s :: es =>
      match params.findIdx? (fun p => p.1 == s) with
      | none => .error .unknownIdent
      | some idx => do
          let rest ← code_exprs params es
          .ok (lebU idx ++ rest)
  | _ :: _ => .error .unimplementedExpr

/-- main.rs write_code: empty locals vector, instruction stream, end byte
0x0b, all prefixed by the record's own byte length. -/
def write_code (f : Func) : Except Panic (List Nat) := do
  let locals := into_wasm_vec [] 0
  let code0 ← code_exprs f.params f.body
  let code := code0 ++ [0x0b]
  .ok (lebU (locals.length + code.length) ++ locals ++ code)

/-- The export loop of main.rs compile: each export's ident is resolved by
first-match scan over the function list (panic "unknown function" on
failure) and write_export is called with the export's IDENT as the name
argument. -/
def export_records (funcs : List Func) : List Export → Except Panic (List Nat)
  | [] => .ok []
  | e :: es =>
      match funcs.findIdx? (fun f => f.name == e.ident) with
      | none => .error .unknownFunction
      | some idx => do
          let rest ← export_records funcs es
          .ok (write_export e.ident e.ty idx ++ rest)

/-- The code-section loop of main.rs compile: write_code per function in
declaration order, the first panic aborting everything. -/
def code_records : List Func → Except Panic (List Nat)
  | [] => .ok []
  | f :: fs => do
      let c ← write_code f
      let rest ← code_records fs
      .ok (c ++ rest)

/-- The function-section payload of main.rs compile: each function's own
index in LEB128, in order. -/
def func_indices (n : Nat) : List Nat := ((List.range n).map lebU).flatten

/-- main.rs compile: exports resolved and serialized first (so an
unresolved export panics before any function is encoded), then the three
per-function sections, then the container: magic, version, and the four
sections type (1), function (3), export (7), code (10). -/
def compile (m : WatModule) : Except Panic (List Nat) := do
  let exb ← export_records m.funcs m.exports
  let export_sec := into_wasm_vec exb m.exports.length
  let func_sec := into_wasm_vec (func_indices m.funcs.length) m.funcs.length
  let type_sec := into_wasm_vec ((m.funcs.map write_type).flatten) m.funcs.length
  let codeb ← code_records m.funcs
  let code_sec := into_wasm_vec codeb m.funcs.length
  .ok (write_magic_and_version ++
       write_section 1 type_sec ++ write_section 3 func_sec ++
       write_section 7 export_sec ++ write_section 10 code_sec)

/-! ## The parser (parser.rs) -/

/-- Result of a nom parser on a remaining input: success with remainder,
a backtrackable nom Error, or a Rust panic raised inside a closure. -/
inductive PRes (α : Type) where
  | ok (rest : List Char) (val : α)
  | err
  | panic
deriving DecidableEq

/-- The whitespace alternatives of parser.rs sp: one_of " tab lf cr". -/
def isWsChar (c : Char) : Bool := c = ' ' || c = '\t' || c = '\n' || c = '\r'

/-- Scanner state for sp: outside any comment, inside a line comment,
inside a block comment. -/
inductive SpMode where
  | top | line | block

/-- parser.rs sp and comment, fused into one left-to-right scanner.
At top level a whitespace char is skipped, a double semicolon enters a
line comment (terminated by newline or end of input), an open-paren
semicolon pair enters a block comment (terminated by the first semicolon
close-paren pair; if none exists the comment parser fails and sp stops at
the saved position, which the block mode carries).  Anything else stops
the scan, exactly like many0 over alt(one_of, comment). -/
def spGo : SpMode → List Char → List Char → List Char
  | .top, _, [] => []
  | .top, _, ';' :: ';' :: r => spGo .line [] r
  | .top, _, '(' :: ';' :: r => spGo .block ('(' :: ';' :: r) r
  | .top, _, c :: r => if isWsChar c then spGo .top [] r else c :: r
  | .line, _, [] => []
  | .line, _, '\n' :: r => spGo .top [] r
  | .line, _, _ :: r => spGo .line [] r
  | .block, sv, [] => sv
  | .block, _, ';' :: ')' :: r => spGo .top [] r
  | .block, sv, _ :: r => spGo .block sv r

/-- parser.rs sp: skip any mix of whitespace and comments.  It always
succeeds, so it is a plain function on the input. -/
def sp (s : List Char) : List Char := spGo .top [] s

/-- nom char. -/
def pchar (c : Char) : List Char → PRes Unit
  | d :: r => if d = c then .ok r () else .err
  | [] => .err

/-- nom tag, by explicit prefix comparison. -/
def ptag : List Char → List Char → PRes Unit
  | [], s => .ok s ()
  | c :: t, d :: s => if c = d then ptag t s else .err
  | _ :: _, [] => .err

/-- parser.rs ws: delimited(sp, inner, sp). -/
def pws {α : Type} (p : List Char → PRes α) (s : List Char) : PRes α :=
  match p (sp s) with
  | .ok r v => .ok (sp r) v
  | .err => .err
  | .panic => .panic

/-- parser.rs s_expr: delimited(ws(char lparen), inner, ws(char rparen)). -/
def psexpr {α : Type} (inner : List Char → PRes α) (s : List Char) : PRes α :=
  match pws (pchar '(') s with
  | .ok r _ =>
      match inner r with
      | .ok r2 v =>
          match pws (pchar ')') r2 with
          | .ok r3 _ => .ok r3 v
          | .err => .err
          | .panic => .panic
      | .err => .err
      | .panic => .panic
  | .err => .err
  | .panic => .panic

/-- ws(opt(p)): leading sp, optional p (failure consumes nothing),
trailing sp. -/
def pwsOpt {α : Type} (p : List Char → PRes α) (s : List Char) : PRes (Option α) :=
  match p (sp s) with
  | .ok r v => .ok (sp r) (some v)
  | .err => .ok (sp (sp s)) none
  | .panic => .panic

/-- nom many0 with its no-progress check: an iteration that consumes
nothing is an error.  The check makes each iteration consume at least one
char, so the fuel passed at every call site, input length plus one, is
never exhausted; fuel zero is dead code for structural recursion. -/
def pmany0F {α : Type} : Nat → (List Char → PRes α) → List Char → PRes (List α)
  | 0, _, _ => .err
  | fuel + 1, p, s =>
      match p s with
      | .err => .ok s []
      | .panic => .panic
      | .ok r v =>
          if r.length < s.length then
            match pmany0F fuel p r with
            | .ok r2 vs => .ok r2 (v :: vs)
            | .err => .err
            | .panic => .panic
          else .err

/-- Rust char::is_ascii_alphanumeric. -/
def isAsciiAlnum (c : Char) : Bool :=
  (48 ≤ c.toNat && c.toNat ≤ 57) || (65 ≤ c.toNat && c.toNat ≤ 90) ||
  (97 ≤ c.toNat && c.toNat ≤ 122)

/-- nom alpha1 character class: ASCII letters. -/
def isAsciiAlpha (c : Char) : Bool :=
  (65 ≤ c.toNat && c.toNat ≤ 90) || (97 ≤ c.toNat && c.toNat ≤ 122)

/-- The extended symbol set of parser.rs idchar, written with the exact
characters of the source (several of which are non-ASCII lookalikes). -/
def idExtra : List Char :=
  ['!', '#', '$', '%', '&', '′', '∗', '+', '−', '.', '/', '‘', ':', '<',
   '=', '>', '?', '@', '\\', '^', '_', 'ˋ', '∣', '~']

/-- parser.rs idchar character class: ASCII alphanumerics plus idExtra. -/
def isIdChar (c : Char) : Bool := isAsciiAlnum c || idExtra.contains c

/-- parser.rs identifier: a dollar sigil then take_while idchar (possibly
empty), returning the name without the sigil. -/
def pidentifier : List Char → PRes (List Char)
  | '$' :: r => .ok (r.dropWhile isIdChar) (r.takeWhile isIdChar)
  | _ => .err

/-- parser.rs keyword: recognize(pair(alpha1, idchar)), the concatenation
of a nonempty ASCII-letter run and a possibly empty idchar run. -/
def pkeyword (s : List Char) : PRes (List Char) :=
  let a := s.takeWhile isAsciiAlpha
  if a.isEmpty then .err
  else
    let r1 := s.dropWhile isAsciiAlpha
    .ok (r1.dropWhile isIdChar) (a ++ r1.takeWhile isIdChar)

/-- parser.rs valtype: map_res(keyword, ValType::from_str) with the four
strum serializations. -/
def pvaltype (s : List Char) : PRes ValType :=
  match pkeyword s with
  | .ok r kw =>
      if kw = "f64".data then .ok r .f64
      else if kw = "f32".data then .ok r .f32
      else if kw = "i64".data then .ok r .i64
      else if kw = "i32".data then .ok r .i32
      else .err
  | .err => .err
  | .panic => .panic

/-- take_until one double quote: chars before the first quote and the
input after it, or none when no quote follows. -/
def strScan : List Char → Option (List Char × List Char)
  | [] => none
  | '"' :: r => some ([], r)
  | c :: r =>
      match strScan r with
      | some (a, rest) => some (c :: a, rest)
      | none => none

/-- parser.rs string: delimited(char quote, take_until quote, char quote),
no escape processing. -/
def pstring : List Char → PRes (List Char)
  | '"' :: r =>
      match strScan r with
      | some (content, rest) => .ok rest content
      | none => .err
  | _ => .err

/-- parser.rs instr: recognize(alphanumeric1, dot, alphanumeric1) matched
against the two strum serializations. -/
def pinstrTok (s : List Char) : PRes Instr :=
  let a := s.takeWhile isAsciiAlnum
  if a.isEmpty then .err
  else
    match s.dropWhile isAsciiAlnum with
    | '.' :: r2 =>
        let b := r2.takeWhile isAsciiAlnum
        if b.isEmpty then .err
        else
          let tok := a ++ '.' :: b
          let rest := r2.dropWhile isAsciiAlnum
          if tok = "local.get".data then .ok rest .localGet
          else if tok = "i32.add".data then .ok rest .i32Add
          else .err
    | _ => .err

/-- parser.rs param: s_expr of (preceded(ws(tag param), identifier),
ws(valtype)). -/
def pparam (s : List Char) : PRes (List Char × ValType) :=
  psexpr (fun t =>
    match pws (ptag "param".data) t with
    | .ok t1 _ =>
        match pidentifier t1 with
        | .ok t2 nm =>
            match pws pvaltype t2 with
            | .ok t3 v => .ok t3 (nm, v)
            | .err => .err
            | .panic => .panic
        | .err => .err
        | .panic => .panic
    | .err => .err
    | .panic => .panic) s

/-- parser.rs result: s_expr of preceded(ws(tag result), valtype). -/
def presult (s : List Char) : PRes ValType :=
  psexpr (fun t =>
    match pws (ptag "result".data) t with
    | .ok t1 _ => pvaltype t1
    | .err => .err
    | .panic => .panic) s

/-- parser.rs export: s_expr of (preceded(ws(tag export), ws(string)),
s_expr(pair(map_res(ws(keyword), ExportType::from_str), identifier))). -/
def pexportP (s : List Char) : PRes Export :=
  psexpr (fun t =>
    match pws (ptag "export".data) t with
    | .ok t1 _ =>
        match pws pstring t1 with
        | .ok t2 nm =>
            match psexpr (fun u =>
                match pws pkeyword u with
                | .ok u1 kw =>
                    if kw = "func".data then
                      match pidentifier u1 with
                      | .ok u2 id => .ok u2 id
                      | .err => .err
                      | .panic => .panic
                    else .err
                | .err => .err
                | .panic => .panic) t2 with
            | .ok t3 id => .ok t3 (Export.mk nm id .func)
            | .err => .err
            | .panic => .panic
        | .err => .err
        | .panic => .panic
    | .err => .err
    | .panic => .panic) s

/-- parser.rs func, parameterized by the parser used for body expressions
(the recursive knot is tied in pexprF): s_expr of (preceded(ws(tag func),
identifier), many0(ws(param)), ws(opt(result)), many0(ws(expr))). -/
def pfuncWith (pe : List Char → PRes Expr) (s : List Char) : PRes Func :=
  psexpr (fun t =>
    match pws (ptag "func".data) t with
    | .ok t1 _ =>
        match pidentifier t1 with
        | .ok t2 nm =>
            match pmany0F (t2.length + 1) (pws pparam) t2 with
            | .ok t3 ps =>
                match pwsOpt presult t3 with
                | .ok t4 res =>
                    match pmany0F (t4.length + 1) (pws pe) t4 with
                    | .ok t5 body => .ok t5 (Func.mk nm ps res body)
                    | .err => .err
                    | .panic => .panic
                | .err => .err
                | .panic => .panic
            | .err => .err
            | .panic => .panic
        | .err => .err
        | .panic => .panic
    | .err => .err
    | .panic => .panic) s

/-- parser.rs expr: alt((func, export, instr, identifier)), with fuel for
the nesting of function forms inside function bodies. -/
def pexprF : Nat → List Char → PRes Expr
  | 0, _ => .err
  | n + 1, s =>
      match pfuncWith (fun u => pexprF n u) s with
      | .ok r f => .ok r (.efunc f)
      | .panic => .panic
      | .err =>
          match pexportP s with
          | .ok r e => .ok r (.eexp e)
          | .panic => .panic
          | .err =>
              match pinstrTok s with
              | .ok r i => .ok r (.instr i)
              | .panic => .panic
              | .err =>
                  match pidentifier s with
                  | .ok r id => .ok r (.ident id)
                  | .panic => .panic
                  | .err => .err

/-- The many0_count(map(ws(expr), push)) loop inside parser.rs module:
child functions and exports are accumulated in order, and the closure's
catch-all arm raises unimplemented, a panic, whenever a child parses as a
bare instruction or identifier.  First fuel argument is the loop fuel,
second the expression-nesting fuel. -/
def pkidsF : Nat → Nat → List Char → PRes (List Func × List Export)
  | 0, _, _ => .err
  | fuel + 1, n, s =>
      match pws (pexprF n) s with
      | .err => .ok s ([], [])
      | .panic => .panic
      | .ok r v =>
          match v with
          | .efunc fn =>
              if r.length < s.length then
                match pkidsF fuel n r with
                | .ok r2 (fs, es) => .ok r2 (fn :: fs, es)
                | .err => .err
                | .panic => .panic
              else .err
          | .eexp ex =>
              if r.length < s.length then
                match pkidsF fuel n r with
                | .ok r2 (fs, es) => .ok r2 (fs, ex :: es)
                | .err => .err
                | .panic => .panic
              else .err
          | _ => .panic

/-- parser.rs module with explicit fuel: s_expr of preceded(ws(tag
module), the child loop). -/
def pmoduleF (n : Nat) (s : List Char) : PRes WatModule :=
  psexpr (fun t =>
    match pws (ptag "module".data) t with
    | .ok t1 _ =>
        match pkidsF (t1.length + 1) n t1 with
        | .ok t2 (fs, es) => .ok t2 (WatModule.mk fs es)
        | .err => .err
        | .panic => .panic
    | .err => .err
    | .panic => .panic) s

/-- parser.rs module as called from main: fuel large enough never to run
out (each nesting level and each loop iteration consumes input). -/
def parseModule (s : List Char) : PRes WatModule := pmoduleF (s.length + 1) s

/-- The match in main.rs main: Ok((leftover, module)) ignores the leftover
and hands the module to compile; a parse error reports and produces no
module. -/
def mainAccepts (s : List Char) : Option WatModule :=
  match parseModule s with
  | .ok _ m => some m
  | _ => none

/-! ## Predicates used to state the claims -/

/-- Body expressions the code emitter handles without reaching its
catch-all arm: bare instructions and bare identifier references. -/
def plainExpr : Expr → Bool
  | .instr _ => true
  | .ident _ => true
  | _ => false

/-- Nested forms in a body: the two variants sent to the catch-all
unimplemented arm of write_code. -/
def nestedExpr : Expr → Bool
  | .efunc _ => true
  | .eexp _ => true
  | _ => false

/-- An expression whose identifier, if any, resolves against the given
parameter list. -/
def resolvableExpr (params : List (List Char × ValType)) : Expr → Bool
  | .ident s => (params.findIdx? (fun p => p.1 == s)).isSome
  | _ => true

/-- Module children on which the closure inside parser.rs module raises
unimplemented: bare instructions and bare identifiers. -/
def badChild : Expr → Bool
  | .instr _ => true
  | .ident _ => true
  | _ => false

/-- True when the semicolon close-paren pair occurs nowhere in the list,
so a block comment with this content ends exactly at its own close
marker. -/
def noClose : List Char → Bool
  | ';' :: ')' :: _ => false
  | _ :: r => noClose r
  | [] => true

/-- One insertable unit of insignificant text: a whitespace character, a
newline-terminated line comment whose content contains no newline, or a
completed block comment whose content contains no close marker. -/
inductive WsChunk : List Char → Prop where
  | ws (c : Char) : isWsChar c = true → WsChunk [c]
  | line (cs : List Char) : (∀ c ∈ cs, c ≠ '\n') →
      WsChunk (';' :: ';' :: (cs ++ ['\n']))
  | block (cs : List Char) : noClose cs = true →
      WsChunk ('(' :: ';' :: (cs ++ [';', ')']))

/-- A whitespace-and-comment sequence: any concatenation of chunks. -/
inductive Wsc : List Char → Prop where
  | nil : Wsc []
  | cons {a b : List Char} : WsChunk a → Wsc b → Wsc (a ++ b)

/-- The concrete source text used against claim C2: function dollar-f
exported under the distinct external name foo. -/
def c2_input : List Char :=
  "(module (func $f) (export \"foo\" (func $f)))".data

/-- The module tree the parser produces for c2_input. -/
def c2_mod : WatModule :=
  WatModule.mk [Func.mk "f".data [] none []]
    [Export.mk "foo".data "f".data .func]

/-! ## Shared lemmas about the byte-level helpers -/

/-- The LEB128 writer emits a single byte, the value itself, for any value
below 128. -/
theorem lebU_small {n : Nat} (h : n < 128) : lebU n = [n] := by
  cases n with
  | zero => rfl
  | succ k => simp [lebU, lebUF, h]

/-- Every value-type discriminant is below 128, so its LEB128 encoding is
the single raw discriminant byte. -/
theorem lebU_valtype (v : ValType) : lebU v.code = [v.code] := by
  cases v <;> rfl

/-- The parameter vector of write_type flattens to one raw discriminant
byte per parameter. -/
theorem flatten_map_leb (ps : List (List Char × ValType)) :
    (ps.map (fun p => lebU p.2.code)).flatten = ps.map (fun p => p.2.code) := by
  induction ps with
  | nil => rfl
  | cons a as ih =>
    simp only [List.map_cons, List.flatten_cons, ih, lebU_valtype a.2]
    rfl

/-- Claim C1: a successfully compiled module is exactly magic, version 1
little-endian, and the four sections type, function, export, code with tag
bytes 1, 3, 7, 10, each one tag byte, then the LEB128 byte length of its
payload, then the payload, with no other bytes. -/
theorem c1_container_layout (m : WatModule) (bytes : List Nat)
    (h : compile m = .ok bytes) :
    ∃ t f e c, bytes =
      [0x00, 0x61, 0x73, 0x6d] ++ [0x01, 0x00, 0x00, 0x00] ++
      ([0x01] ++ lebU t.length ++ t) ++ ([0x03] ++ lebU f.length ++ f) ++
      ([0x07] ++ lebU e.length ++ e) ++ ([0x0a] ++ lebU c.length ++ c) := by
  unfold compile at h
  cases hex : export_records m.funcs m.exports with
  | error er => rw [hex] at h; simp [Bind.bind, Except.bind] at h
  | ok exb =>
    rw [hex] at h
    cases hc : code_records m.funcs with
    | error er => rw [hc] at h; simp [Bind.bind, Except.bind] at h
    | ok codeb =>
      rw [hc] at h
      simp only [Bind.bind, Except.bind, Except.ok.injEq] at h
      exact ⟨into_wasm_vec ((m.funcs.map write_type).flatten) m.funcs.length,
             into_wasm_vec (func_indices m.funcs.length) m.funcs.length,
             into_wasm_vec exb m.exports.length,
             into_wasm_vec codeb m.funcs.length,
             by rw [← h]; simp [write_section, write_magic_and_version]⟩

/-- Witness for C1 at the empty module. -/
theorem c1_container_layout_witness :
    compile (WatModule.mk [] []) =
      .ok [0x00, 0x61, 0x73, 0x6d, 0x01, 0x00, 0x00, 0x00,
           1, 1, 0, 3, 1, 0, 7, 1, 0, 10, 1, 0] ∧
    ∃ t f e c,
      ([0x00, 0x61, 0x73, 0x6d, 0x01, 0x00, 0x00, 0x00,
        1, 1, 0, 3, 1, 0, 7, 1, 0, 10, 1, 0] : List Nat) =
      [0x00, 0x61, 0x73, 0x6d] ++ [0x01, 0x00, 0x00, 0x00] ++
      ([0x01] ++ lebU t.length ++ t) ++ ([0x03] ++ lebU f.length ++ f) ++
      ([0x07] ++ lebU e.length ++ e) ++ ([0x0a] ++ lebU c.length ++ c) :=
  ⟨rfl, c1_container_layout (WatModule.mk [] []) _ rfl⟩

/-- Claim C3 counterexample: a function with no result yields the type
record 0x60 0x00 and nothing more; the record does not end with a zero
result-count byte, contradicting the claimed encoding 0x60 0x00 0x00. -/
theorem c3_counterexample :
    write_type (Func.mk "f".data [] none []) = [0x60, 0x00] ∧
    write_type (Func.mk "f".data [] none []) ≠ [0x60, 0x00, 0x00] := by
  refine ⟨rfl, ?_⟩
  decide

/-- Claim C3 as amended: the type record is the 0x60 tag, the LEB128
parameter count, one raw discriminant byte per parameter, and then, only
when a result is present, the count byte 1 followed by the result
discriminant; when the function has no result nothing at all follows the
parameter bytes (no zero count byte). -/
theorem c3_type_record_amended (f : Func) :
    write_type f = [0x60] ++ lebU f.params.length ++
      f.params.map (fun p => p.2.code) ++
      (match f.result with | none => [] | some r => [1, r.code]) := by
  unfold write_type into_wasm_vec
  rw [flatten_map_leb]
  cases hr : f.result with
  | none => simp
  | some r => simp [lebU_valtype, lebU_small]

/-- Claim C9: fixed code fields appear in the output as exactly their
single raw byte while counts, lengths and indices go through the LEB128
writer.  Part one: every value-type discriminant is below 128 and its
LEB128 image is that single byte, so even though write_type routes the
discriminants through the LEB128 writer the emitted field is the raw code
byte with no continuation bit.  Part two: the code emitter appends each
instruction opcode as one raw byte.  Part three: the full shape of the
type record, exhibiting the LEB128 count next to the raw code bytes. -/
theorem c9_single_byte_codes :
    (∀ v : ValType, v.code < 128 ∧ lebU v.code = [v.code]) ∧
    (∀ ps i es, code_exprs ps (Expr.instr i :: es) =
      (code_exprs ps es).map (fun rest => i.code :: rest)) ∧
    (∀ f : Func, write_type f =
      [0x60] ++ lebU f.params.length ++ f.params.map (fun p => p.2.code) ++
      (match f.result with | none => [] | some r => lebU 1 ++ [r.code])) := by
  refine ⟨fun v => ⟨by cases v <;> decide, lebU_valtype v⟩, ?_, ?_⟩
  · intro ps i es
    cases h : code_exprs ps es <;>
      simp [code_exprs, h, Bind.bind, Except.bind, Except.map, Functor.map]
  · intro f
    unfold write_type into_wasm_vec
    rw [flatten_map_leb]
    cases hr : f.result with
    | none => simp
    | some r => simp [lebU_valtype]

/-! ## Resolution lemmas for the encoder loops -/

/-- An export whose ident matches no function makes the export loop end in
the unknown-function panic. -/
theorem export_records_unresolved {funcs : List Func} {exs : List Export}
    (h : ∃ e ∈ exs, funcs.findIdx? (fun f => f.name == e.ident) = none) :
    export_records funcs exs = .error .unknownFunction := by
  induction exs with
  | nil => simp at h
  | cons e es ih =>
    obtain ⟨e', he', hnone⟩ := h
    rcases List.mem_cons.mp he' with heq | hmem
    · subst heq
      simp [export_records, hnone]
    · cases hfind : funcs.findIdx? (fun f => f.name == e.ident) with
      | none => simp [export_records, hfind]
      | some idx =>
        simp [export_records, hfind, ih ⟨e', hmem, hnone⟩, Bind.bind, Except.bind]

/-- When every export resolves, the export loop succeeds. -/
theorem export_records_resolved {funcs : List Func} {exs : List Export}
    (h : ∀ e ∈ exs, (funcs.findIdx? (fun f => f.name == e.ident)).isSome) :
    ∃ r, export_records funcs exs = .ok r := by
  induction exs with
  | nil => exact ⟨[], rfl⟩
  | cons e es ih =>
    have h1 := h e (List.mem_cons_self e es)
    cases hfind : funcs.findIdx? (fun f => f.name == e.ident) with
    | none => rw [hfind] at h1; simp at h1
    | some idx =>
      obtain ⟨r, hr⟩ := ih (fun e' he' => h e' (List.mem_cons_of_mem _ he'))
      cases hres : export_records funcs (e :: es) with
      | ok w => exact ⟨w, rfl⟩
      | error er => simp [export_records, hfind, hr, Bind.bind, Except.bind] at hres

/-- Over a body of bare instructions and identifiers the instruction loop
either succeeds or ends in the unknown-ident panic. -/
theorem code_exprs_plain {ps : List (List Char × ValType)} {es : List Expr}
    (h : ∀ e ∈ es, plainExpr e = true) :
    (∃ r, code_exprs ps es = .ok r) ∨ code_exprs ps es = .error .unknownIdent := by
  induction es with
  | nil => exact .inl ⟨[], rfl⟩
  | cons e es ih =>
    have hplain := h e (List.mem_cons_self e es)
    have ihh := ih (fun e' he' => h e' (List.mem_cons_of_mem _ he'))
    cases e with
    | instr i =>
      rcases ihh with ⟨r, hr⟩ | hr
      · cases hres : code_exprs ps (Expr.instr i :: es) with
        | ok w => exact .inl ⟨w, rfl⟩
        | error er => simp [code_exprs, hr, Bind.bind, Except.bind] at hres
      · exact .inr (by simp [code_exprs, hr, Bind.bind, Except.bind])
    | ident s =>
      cases hfind : ps.findIdx? (fun p => p.1 == s) with
      | none => exact .inr (by simp [code_exprs, hfind])
      | some idx =>
        rcases ihh with ⟨r, hr⟩ | hr
        · cases hres : code_exprs ps (Expr.ident s :: es) with
          | ok w => exact .inl ⟨w, rfl⟩
          | error er => simp [code_exprs, hfind, hr, Bind.bind, Except.bind] at hres
        · exact .inr (by simp [code_exprs, hfind, hr, Bind.bind, Except.bind])
    | efunc f => simp [plainExpr] at hplain
    | eexp x => simp [plainExpr] at hplain

/-- A body containing an identifier that resolves against no parameter
never lets the instruction loop succeed. -/
theorem code_exprs_unresolved {ps : List (List Char × ValType)} {es : List Expr}
    (h : ∃ s, Expr.ident s ∈ es ∧ ps.findIdx? (fun p => p.1 == s) = none) :
    ∀ r, code_exprs ps es ≠ .ok r := by
  induction es with
  | nil =>
    obtain ⟨s, hs, _⟩ := h
    simp at hs
  | cons e es ih =>
    obtain ⟨s, hs, hnone⟩ := h
    rcases List.mem_cons.mp hs with heq | hmem
    · intro r
      rw [← heq]
      simp [code_exprs, hnone]
    · intro r
      cases e with
      | instr i =>
        cases hrec : code_exprs ps es with
        | error er => simp [code_exprs, hrec, Bind.bind, Except.bind]
        | ok v => exact absurd hrec (ih ⟨s, hmem, hnone⟩ v)
      | ident s2 =>
        cases hfind : ps.findIdx? (fun p => p.1 == s2) with
        | none => simp [code_exprs, hfind]
        | some idx =>
          cases hrec : code_exprs ps es with
          | error er => simp [code_exprs, hfind, hrec, Bind.bind, Except.bind]
          | ok v => exact absurd hrec (ih ⟨s, hmem, hnone⟩ v)
      | efunc f => simp [code_exprs]
      | eexp x => simp [code_exprs]

/-- Over a body whose identifiers all resolve, the instruction loop either
succeeds or ends in the unimplemented panic of the catch-all arm. -/
theorem code_exprs_resolvable {ps : List (List Char × ValType)} {es : List Expr}
    (h : ∀ e ∈ es, resolvableExpr ps e = true) :
    (∃ r, code_exprs ps es = .ok r) ∨ code_exprs ps es = .error .unimplementedExpr := by
  induction es with
  | nil => exact .inl ⟨[], rfl⟩
  | cons e es ih =>
    have hres := h e (List.mem_cons_self e es)
    have ihh := ih (fun e' he' => h e' (List.mem_cons_of_mem _ he'))
    cases e with
    | instr i =>
      rcases ihh with ⟨r, hr⟩ | hr
      · cases hres : code_exprs ps (Expr.instr i :: es) with
        | ok w => exact .inl ⟨w, rfl⟩
        | error er => simp [code_exprs, hr, Bind.bind, Except.bind] at hres
      · exact .inr (by simp [code_exprs, hr, Bind.bind, Except.bind])
    | ident s =>
      cases hfind : ps.findIdx? (fun p => p.1 == s) with
      | none => rw [resolvableExpr, hfind] at hres; simp at hres
      | some idx =>
        rcases ihh with ⟨r, hr⟩ | hr
        · cases hres : code_exprs ps (Expr.ident s :: es) with
          | ok w => exact .inl ⟨w, rfl⟩
          | error er => simp [code_exprs, hfind, hr, Bind.bind, Except.bind] at hres
        · exact .inr (by simp [code_exprs, hfind, hr, Bind.bind, Except.bind])
    | efunc f => exact .inr (by simp [code_exprs])
    | eexp x => exact .inr (by simp [code_exprs])

/-- A body containing a nested form never lets the instruction loop
succeed. -/
theorem code_exprs_nested {ps : List (List Char × ValType)} {es : List Expr}
    (h : ∃ e ∈ es, nestedExpr e = true) :
    ∀ r, code_exprs ps es ≠ .ok r := by
  induction es with
  | nil =>
    obtain ⟨e, he, _⟩ := h
    simp at he
  | cons e es ih =>
    obtain ⟨e', he', hnest⟩ := h
    intro r
    cases e with
    | instr i =>
      rcases List.mem_cons.mp he' with heq | hmem
      · rw [heq] at hnest; simp [nestedExpr] at hnest
      · cases hrec : code_exprs ps es with
        | error er => simp [code_exprs, hrec, Bind.bind, Except.bind]
        | ok v => exact absurd hrec (ih ⟨e', hmem, hnest⟩ v)
    | ident s2 =>
      rcases List.mem_cons.mp he' with heq | hmem
      · rw [heq] at hnest; simp [nestedExpr] at hnest
      · cases hfind : ps.findIdx? (fun p => p.1 == s2) with
        | none => simp [code_exprs, hfind]
        | some idx =>
          cases hrec : code_exprs ps es with
          | error er => simp [code_exprs, hfind, hrec, Bind.bind, Except.bind]
          | ok v => exact absurd hrec (ih ⟨e', hmem, hnest⟩ v)
    | efunc f => simp [code_exprs]
    | eexp x => simp [code_exprs]

/-- A body of bare instructions and resolvable identifiers is encoded
successfully. -/
theorem code_exprs_all_ok {ps : List (List Char × ValType)} {es : List Expr}
    (h : ∀ e ∈ es, plainExpr e = true ∧ resolvableExpr ps e = true) :
    ∃ r, code_exprs ps es = .ok r := by
  rcases code_exprs_plain (fun e he => (h e he).1) with hok | herr
  · exact hok
  · rcases code_exprs_resolvable (fun e he => (h e he).2) with hok | herr2
    · exact hok
    · rw [herr] at herr2
      simp at herr2

/-- write_code fails exactly as its instruction loop does. -/
theorem write_code_err {f : Func} {er : Panic}
    (h : code_exprs f.params f.body = .error er) : write_code f = .error er := by
  simp [write_code, h, Bind.bind, Except.bind]

/-- write_code succeeds when its instruction loop does. -/
theorem write_code_ok {f : Func} {r : List Nat}
    (h : code_exprs f.params f.body = .ok r) : ∃ w, write_code f = .ok w := by
  cases hres : write_code f with
  | ok w => exact ⟨w, rfl⟩
  | error er => simp [write_code, h, Bind.bind, Except.bind] at hres

/-- write_code succeeds only when its instruction loop does. -/
theorem write_code_ok_inv {f : Func} {w : List Nat}
    (h : write_code f = .ok w) : ∃ r, code_exprs f.params f.body = .ok r := by
  cases hc : code_exprs f.params f.body with
  | error er => rw [write_code_err hc] at h; exact absurd h (by simp)
  | ok r => exact ⟨r, rfl⟩

/-- The code-section loop succeeds when every function encodes. -/
theorem code_records_ok {fs : List Func}
    (h : ∀ f ∈ fs, ∃ w, write_code f = .ok w) :
    ∃ r, code_records fs = .ok r := by
  induction fs with
  | nil => exact ⟨[], rfl⟩
  | cons f fs ih =>
    obtain ⟨w, hw⟩ := h f (List.mem_cons_self f fs)
    obtain ⟨r, hr⟩ := ih (fun f' hf' => h f' (List.mem_cons_of_mem _ hf'))
    cases hres : code_records (f :: fs) with
    | ok w2 => exact ⟨w2, rfl⟩
    | error er => simp [code_records, hw, hr, Bind.bind, Except.bind] at hres

/-- When every function either encodes or fails with the same panic, and
at least one cannot encode, the code-section loop ends in that panic. -/
theorem code_records_err {fs : List Func} {er : Panic}
    (hall : ∀ f ∈ fs, write_code f = .error er ∨ ∃ w, write_code f = .ok w)
    (hsome : ∃ f ∈ fs, ∀ w, write_code f ≠ .ok w) :
    code_records fs = .error er := by
  induction fs with
  | nil =>
    obtain ⟨f, hf, _⟩ := hsome
    simp at hf
  | cons f fs ih =>
    rcases hall f (List.mem_cons_self f fs) with herr | ⟨w, hw⟩
    · simp [code_records, herr, Bind.bind, Except.bind]
    · obtain ⟨f', hf', hnok⟩ := hsome
      rcases List.mem_cons.mp hf' with heq | hmem
      · subst heq
        exact absurd hw (hnok w)
      · have hrec := ih (fun g hg => hall g (List.mem_cons_of_mem _ hg))
          ⟨f', hmem, hnok⟩
        simp [code_records, hw, hrec, Bind.bind, Except.bind]

/-- compile fails with the export loop's panic. -/
theorem compile_err_of_export {m : WatModule} {er : Panic}
    (hex : export_records m.funcs m.exports = .error er) :
    compile m = .error er := by
  simp [compile, hex, Bind.bind, Except.bind]

/-- compile fails with the code loop's panic when exports resolved. -/
theorem compile_err_of_code {m : WatModule} {exb : List Nat} {er : Panic}
    (hex : export_records m.funcs m.exports = .ok exb)
    (hc : code_records m.funcs = .error er) :
    compile m = .error er := by
  simp [compile, hex, hc, Bind.bind, Except.bind]

/-- compile succeeds when both fallible loops do. -/
theorem compile_ok {m : WatModule} {exb cb : List Nat}
    (hex : export_records m.funcs m.exports = .ok exb)
    (hc : code_records m.funcs = .ok cb) :
    ∃ w, compile m = .ok w := by
  cases hres : compile m with
  | ok w => exact ⟨w, rfl⟩
  | error er => simp [compile, hex, hc, Bind.bind, Except.bind] at hres

/-! ## Claims C2, C5, C10 -/

/-- Claim C2, evaluated at the failing input: the parsed module exports
function dollar-f under the distinct external name foo, yet compile passes
export.ident to write_export, so the emitted record carries the
length-prefixed bytes of the ident f (bytes 1, 0x66), not of the string
literal foo (bytes 3, 0x66, 0x6f, 0x6f); the export_name field never
reaches the output. -/
theorem c2_export_name_bug :
    parseModule c2_input = .ok [] c2_mod ∧
    c2_mod.exports = [Export.mk "foo".data "f".data .func] ∧
    compile c2_mod = .ok [0x00, 0x61, 0x73, 0x6d, 0x01, 0x00, 0x00, 0x00,
      1, 3, 1, 0x60, 0, 3, 2, 1, 0, 7, 5, 1, 1, 0x66, 0, 0, 10, 4, 1, 2, 0, 0x0b] ∧
    write_export "f".data .func 0 = [1, 0x66, 0, 0] ∧
    into_wasm_vec (strBytes "foo".data) (strBytes "foo".data).length ++ [0] ++ lebU 0 =
      [3, 0x66, 0x6f, 0x6f, 0, 0] ∧
    ([1, 0x66, 0, 0] : List Nat) ≠ [3, 0x66, 0x6f, 0x6f, 0, 0] :=
  ⟨rfl, rfl, rfl, rfl, rfl, by decide⟩

/-- Claim C5 counterexample: in both failing situations the encoder's
outcome is the modelled process panic raised by an expect call, not a
returned structured error; no structured UnresolvedExport or
UnresolvedIdentifier value exists anywhere in the code. -/
theorem c5_counterexample :
    compile (WatModule.mk [] [Export.mk "a".data "f".data .func]) =
      .error Panic.unknownFunction ∧
    compile (WatModule.mk [Func.mk "g".data [] none [Expr.ident "x".data]] []) =
      .error Panic.unknownIdent :=
  ⟨rfl, rfl⟩

/-- Claim C5 as amended: an export naming an absent function aborts
encoding with the unknown-function panic of the expect call, and, when all
exports resolve and every body holds only bare instructions and
identifiers, an unresolvable body identifier aborts encoding with the
unknown-ident panic; in both cases no output bytes are produced.  The
panics are modelled process aborts, not returned structured error
values. -/
theorem c5_failure_modes_amended (m : WatModule) :
    ((∃ e ∈ m.exports, m.funcs.findIdx? (fun f => f.name == e.ident) = none) →
      compile m = .error .unknownFunction) ∧
    ((∀ e ∈ m.exports, (m.funcs.findIdx? (fun f => f.name == e.ident)).isSome) →
     (∀ f ∈ m.funcs, ∀ e ∈ f.body, plainExpr e = true) →
     (∃ f ∈ m.funcs, ∃ s, Expr.ident s ∈ f.body ∧
        f.params.findIdx? (fun p => p.1 == s) = none) →
      compile m = .error .unknownIdent) := by
  constructor
  · intro h
    exact compile_err_of_export (export_records_unresolved h)
  · intro hexp hplain hbad
    obtain ⟨exb, hex⟩ := export_records_resolved hexp
    refine compile_err_of_code hex (code_records_err ?_ ?_)
    · intro f hf
      rcases code_exprs_plain (hplain f hf) with ⟨r, hr⟩ | hr
      · exact .inr (write_code_ok hr)
      · exact .inl (write_code_err hr)
    · obtain ⟨f, hf, s, hs, hnone⟩ := hbad
      refine ⟨f, hf, fun w hw => ?_⟩
      obtain ⟨r, hr⟩ := write_code_ok_inv hw
      exact code_exprs_unresolved ⟨s, hs, hnone⟩ r hr

/-- Witness for the amended C5 at two concrete modules. -/
theorem c5_failure_modes_amended_witness :
    compile (WatModule.mk [] [Export.mk "b".data "g".data .func]) =
      .error .unknownFunction ∧
    compile (WatModule.mk [Func.mk "h".data [] none [Expr.ident "y".data]] []) =
      .error .unknownIdent :=
  ⟨(c5_failure_modes_amended _).1
      ⟨Export.mk "b".data "g".data .func, List.mem_cons_self _ _, rfl⟩,
   (c5_failure_modes_amended _).2
      (by intro e he; simp at he)
      (by
        intro f hf e he
        rcases List.mem_cons.mp hf with heq | habs
        · subst heq
          rcases List.mem_cons.mp he with heq2 | habs2
          · rw [heq2]; rfl
          · simp at habs2
        · simp at habs)
      ⟨Func.mk "h".data [] none [Expr.ident "y".data], List.mem_cons_self _ _,
       "y".data, List.mem_cons_self _ _, rfl⟩⟩

/-- Claim C10 counterexample.  First conjunct pair: a parsed module whose
function body holds a nested function form, yet whose encoding panics with
unknown function (an unresolved export is hit first), so encoding does not
reach the catch-all arm.  Second pair: a parsed module whose bodies hold
only instruction tokens and identifier references, yet encoding does not
complete; it panics on the unresolved identifier. -/
theorem c10_counterexample :
    parseModule "(module (func $g (func $h)) (export \"a\" (func $nofunc)))".data =
      .ok [] (WatModule.mk
        [Func.mk "g".data [] none [Expr.efunc (Func.mk "h".data [] none [])]]
        [Export.mk "a".data "nofunc".data .func]) ∧
    compile (WatModule.mk
        [Func.mk "g".data [] none [Expr.efunc (Func.mk "h".data [] none [])]]
        [Export.mk "a".data "nofunc".data .func]) =
      .error Panic.unknownFunction ∧
    parseModule "(module (func $g $x))".data =
      .ok [] (WatModule.mk [Func.mk "g".data [] none [Expr.ident "x".data]] []) ∧
    compile (WatModule.mk [Func.mk "g".data [] none [Expr.ident "x".data]] []) =
      .error Panic.unknownIdent :=
  ⟨rfl, rfl, rfl, rfl⟩

/-- Claim C10 as amended: the grammar accepts a nested function form as a
body expression (first conjunct, a concrete parse); when all exports
resolve and every body identifier resolves, a body containing a nested
form makes encoding reach the catch-all arm and panic with unimplemented;
and when all exports resolve and bodies hold only instructions and
resolvable identifiers, the catch-all is unreachable and encoding
completes. -/
theorem c10_nested_forms_amended :
    (parseModule "(module (func $g (func $h)))".data =
      .ok [] (WatModule.mk
        [Func.mk "g".data [] none [Expr.efunc (Func.mk "h".data [] none [])]] [])) ∧
    (∀ m : WatModule,
      (∀ e ∈ m.exports, (m.funcs.findIdx? (fun f => f.name == e.ident)).isSome) →
      (∀ f ∈ m.funcs, ∀ e ∈ f.body, resolvableExpr f.params e = true) →
      (∃ f ∈ m.funcs, ∃ e ∈ f.body, nestedExpr e = true) →
      compile m = .error .unimplementedExpr) ∧
    (∀ m : WatModule,
      (∀ e ∈ m.exports, (m.funcs.findIdx? (fun f => f.name == e.ident)).isSome) →
      (∀ f ∈ m.funcs, ∀ e ∈ f.body,
        plainExpr e = true ∧ resolvableExpr f.params e = true) →
      ∃ w, compile m = .ok w) := by
  refine ⟨rfl, ?_, ?_⟩
  · intro m hexp hres hnest
    obtain ⟨exb, hex⟩ := export_records_resolved hexp
    refine compile_err_of_code hex (code_records_err ?_ ?_)
    · intro f hf
      rcases code_exprs_resolvable (hres f hf) with ⟨r, hr⟩ | hr
      · exact .inr (write_code_ok hr)
      · exact .inl (write_code_err hr)
    · obtain ⟨f, hf, e, he, hn⟩ := hnest
      refine ⟨f, hf, fun w hw => ?_⟩
      obtain ⟨r, hr⟩ := write_code_ok_inv hw
      exact code_exprs_nested ⟨e, he, hn⟩ r hr
  · intro m hexp hok
    obtain ⟨exb, hex⟩ := export_records_resolved hexp
    obtain ⟨cb, hc⟩ := code_records_ok (fun f hf => by
      obtain ⟨r, hr⟩ := code_exprs_all_ok (hok f hf)
      exact write_code_ok hr)
    exact compile_ok hex hc

/-- Witness for the amended C10 at two concrete modules. -/
theorem c10_nested_forms_amended_witness :
    compile (WatModule.mk
        [Func.mk "k".data [] none [Expr.efunc (Func.mk "n".data [] none [])]] []) =
      .error .unimplementedExpr ∧
    ∃ w, compile (WatModule.mk
        [Func.mk "k".data [("z".data, ValType.i32)] none [Expr.ident "z".data]] []) =
      .ok w :=
  ⟨c10_nested_forms_amended.2.1 _
      (by intro e he; simp at he)
      (by
        intro f hf e he
        rcases List.mem_cons.mp hf with heq | habs
        · subst heq
          rcases List.mem_cons.mp he with heq2 | habs2
          · rw [heq2]; rfl
          · simp at habs2
        · simp at habs)
      ⟨Func.mk "k".data [] none [Expr.efunc (Func.mk "n".data [] none [])],
       List.mem_cons_self _ _,
       Expr.efunc (Func.mk "n".data [] none []), List.mem_cons_self _ _, rfl⟩,
   c10_nested_forms_amended.2.2 _
      (by intro e he; simp at he)
      (by
        intro f hf e he
        rcases List.mem_cons.mp hf with heq | habs
        · subst heq
          rcases List.mem_cons.mp he with heq2 | habs2
          · rw [heq2]; exact ⟨rfl, rfl⟩
          · simp at habs2
        · simp at habs)⟩

/-! ## Claims C4, C6, C7 -/

/-- Claim C4 counterexample: the claimed declaration writes its body with
parenthesized instruction forms, which this grammar does not accept (a
parenthesized body expression can only be a nested func or export form);
parsing the module fails outright, so compiling that declaration never
produces a code-section record at all. -/
theorem c4_counterexample :
    parseModule "(module (func $add (param $p0 i32) (param $p1 i32) (result i32) (local.get $p0) (local.get $p1) i32.add))".data =
      .err :=
  rfl

/-- Claim C4 as amended: with the body written as the bare token sequence
local.get dollar-p0 local.get dollar-p1 i32.add (the only form this
grammar accepts), the module parses to the expected tree, and for any
function with parameters p0 and p1 of type i32 and that body, write_code
produces the record whose instruction stream is exactly 0x20 0x00 0x20
0x01 0x6a 0x0b, preceded by the empty locals vector 0x00 and the record's
own byte-length prefix 0x07. -/
theorem c4_code_record_amended :
    parseModule "(module (func $add (param $p0 i32) (param $p1 i32) (result i32) local.get $p0 local.get $p1 i32.add))".data =
      .ok [] (WatModule.mk [Func.mk "add".data
        [("p0".data, ValType.i32), ("p1".data, ValType.i32)] (some .i32)
        [Expr.instr .localGet, Expr.ident "p0".data, Expr.instr .localGet,
         Expr.ident "p1".data, Expr.instr .i32Add]] []) ∧
    (∀ (nm : List Char) (res : Option ValType),
      write_code (Func.mk nm [("p0".data, ValType.i32), ("p1".data, ValType.i32)] res
        [Expr.instr .localGet, Expr.ident "p0".data, Expr.instr .localGet,
         Expr.ident "p1".data, Expr.instr .i32Add]) =
      .ok ([0x07] ++ [0x00] ++ [0x20, 0x00, 0x20, 0x01, 0x6a, 0x0b])) :=
  ⟨rfl, fun _ _ => rfl⟩

/-- Claim C6 counterexample: a module child that parses as a bare
instruction token makes parsing hit the unimplemented arm of the module
closure, a panic; it neither succeeds nor fails with a syntax error. -/
theorem c6_counterexample :
    parseModule "(module i32.add)".data = .panic :=
  rfl

/-- Claim C6 as amended: inside the module form, a child that parses as a
bare instruction or bare identifier is an internal consistency fault: the
child loop panics (first conjunct, for every such child and input, and the
two concrete panics).  A child matching none of the four expression
alternatives instead makes the child loop stop, after which the missing
close paren fails the module parse with an ordinary backtracking syntax
error (no structured UnexpectedForm value exists in the code), as in the
last concrete conjunct. -/
theorem c6_module_children_amended :
    (∀ n s rest v, pws (pexprF n) s = .ok rest v → badChild v = true →
      ∀ fuel, pkidsF (fuel + 1) n s = .panic) ∧
    parseModule "(module $x)".data = .panic ∧
    parseModule "(module (blah))".data = .err := by
  refine ⟨?_, rfl, rfl⟩
  intro n s rest v hok hbad fuel
  unfold pkidsF
  rw [hok]
  cases v with
  | instr i => rfl
  | ident s2 => rfl
  | efunc f => simp [badChild] at hbad
  | eexp e => simp [badChild] at hbad

/-- Witness for the amended C6: one loop step over a bare instruction
child panics. -/
theorem c6_module_children_amended_witness :
    pkidsF 1 2 "i32.add)".data = .panic :=
  c6_module_children_amended.1 2 "i32.add)".data ")".data (Expr.instr .i32Add)
    rfl rfl 0

/-- Claim C7 counterexample: trailing content after the root module form
does not make parsing fail.  The parser returns the empty module with the
trailing x unconsumed, x is not whitespace-or-comment material (the
skipper leaves it in place), and the driver accepts the module anyway. -/
theorem c7_counterexample :
    parseModule "(module)x".data = .ok "x".data (WatModule.mk [] []) ∧
    sp "x".data = "x".data ∧
    mainAccepts "(module)x".data = some (WatModule.mk [] []) :=
  ⟨rfl, rfl, rfl⟩

/-- Claim C7 as amended: parsing is not total-input.  The module parser
consumes only the root form (plus surrounding insignificant text) and
main's match ignores whatever remainder it leaves, handing the module to
the encoder regardless of trailing content. -/
theorem c7_trailing_ignored_amended (s rest : List Char) (m : WatModule)
    (h : parseModule s = .ok rest m) : mainAccepts s = some m := by
  unfold mainAccepts
  rw [h]

/-- Witness for the amended C7. -/
theorem c7_trailing_ignored_amended_witness :
    mainAccepts "(module) junk".data = some (WatModule.mk [] []) :=
  c7_trailing_ignored_amended _ "junk".data _ rfl

/-! ## Absorption and stopping behaviour of the whitespace-and-comment skipper -/

theorem spGo_line_step {c : Char} (hc : c ≠ '\n') (sv t : List Char) :
    spGo .line sv (c :: t) = spGo .line [] t := by
  rcases t with _ | ⟨d, t⟩ <;> simp [spGo, hc]

theorem spGo_line_absorb {cs : List Char} (h : ∀ c ∈ cs, c ≠ '\n')
    (sv t : List Char) : spGo .line sv (cs ++ '\n' :: t) = spGo .top [] t := by
  induction cs generalizing sv with
  | nil => rcases t with _ | ⟨d, t⟩ <;> simp [spGo]
  | cons c cs ih =>
    rw [List.cons_append, spGo_line_step (h c (List.mem_cons_self _ _))]
    exact ih (fun c' hc' => h c' (List.mem_cons_of_mem _ hc')) []

theorem spGo_block_step {c d : Char} (hcd : ¬(c = ';' ∧ d = ')'))
    (sv t : List Char) : spGo .block sv (c :: d :: t) = spGo .block sv (d :: t) := by
  by_cases hc : c = ';'
  · subst hc
    have hd : d ≠ ')' := fun h => hcd ⟨rfl, h⟩
    simp [spGo, hd]
  · simp [spGo, hc]

theorem noClose_step {c d : Char} {r : List Char}
    (h : noClose (c :: d :: r) = true) :
    ¬(c = ';' ∧ d = ')') ∧ noClose (d :: r) = true := by
  constructor
  · rintro ⟨rfl, rfl⟩
    simp [noClose] at h
  · by_cases hc : c = ';'
    · subst hc
      by_cases hd : d = ')'
      · subst hd; simp [noClose] at h
      · simpa [noClose, hd] using h
    · simpa [noClose, hc] using h

theorem spGo_block_absorb {cs : List Char} (h : noClose cs = true)
    (sv t : List Char) : spGo .block sv (cs ++ ';' :: ')' :: t) = spGo .top [] t := by
  induction cs generalizing sv with
  | nil => simp [spGo]
  | cons c cs ih =>
    rw [List.cons_append]
    cases cs with
    | nil =>
      rw [List.nil_append, spGo_block_step (by rintro ⟨rfl, h2⟩; cases h2)]
      simp [spGo]
    | cons c2 cs2 =>
      obtain ⟨h1, h2⟩ := noClose_step h
      rw [List.cons_append, spGo_block_step h1, ← List.cons_append]
      exact ih h2 sv

theorem wsChar_cases {c : Char} (h : isWsChar c = true) :
    c = ' ' ∨ c = '\t' ∨ c = '\n' ∨ c = '\r' := by
  simp [isWsChar] at h
  tauto

theorem sp_chunk_absorb {a : List Char} (h : WsChunk a) (t : List Char) :
    sp (a ++ t) = sp t := by
  cases h with
  | ws c hc =>
    rcases wsChar_cases hc with rfl | rfl | rfl | rfl <;>
      (rcases t with _ | ⟨d, t⟩ <;> simp [sp, spGo, isWsChar])
  | line cs hcs =>
    show spGo .top [] ((';' :: ';' :: (cs ++ ['\n'])) ++ t) = sp t
    rw [List.cons_append, List.cons_append, List.append_assoc]
    show spGo .top [] (';' :: ';' :: (cs ++ ('\n' :: t))) = sp t
    rw [show spGo .top [] (';' :: ';' :: (cs ++ ('\n' :: t))) =
        spGo .line [] (cs ++ '\n' :: t) from by simp [spGo]]
    exact spGo_line_absorb hcs [] t
  | block cs hcs =>
    show spGo .top [] (('(' :: ';' :: (cs ++ [';', ')'])) ++ t) = sp t
    rw [List.cons_append, List.cons_append, List.append_assoc]
    show spGo .top [] ('(' :: ';' :: (cs ++ (';' :: ')' :: t))) = sp t
    rw [show spGo .top [] ('(' :: ';' :: (cs ++ (';' :: ')' :: t))) =
        spGo .block ('(' :: ';' :: (cs ++ (';' :: ')' :: t))) (cs ++ (';' :: ')' :: t))
        from by simp [spGo]]
    exact spGo_block_absorb hcs _ t

theorem sp_wsc {a : List Char} (h : Wsc a) (t : List Char) :
    sp (a ++ t) = sp t := by
  induction h with
  | nil => rfl
  | cons hchunk _ ih =>
    rw [List.append_assoc, sp_chunk_absorb hchunk, ih]

theorem sp_wsc_nil {a : List Char} (h : Wsc a) : sp a = [] := by
  have := sp_wsc h []
  simpa using this

theorem sp_stop {c : Char} {t : List Char} (h1 : isWsChar c = false)
    (h2 : (c = ';' ∨ c = '(') → t.head? ≠ some ';') :
    sp (c :: t) = c :: t := by
  rcases t with _ | ⟨d, t⟩
  · simp [sp, spGo, h1]
  · by_cases hc1 : c = ';'
    · subst hc1
      have hd : d ≠ ';' := by
        intro hd
        exact h2 (Or.inl rfl) (by rw [hd]; rfl)
      simp [sp, spGo, hd, h1]
    · by_cases hc2 : c = '('
      · subst hc2
        have hd : d ≠ ';' := by
          intro hd
          exact h2 (Or.inr rfl) (by rw [hd]; rfl)
        simp [sp, spGo, hd, h1]
      · simp [sp, spGo, hc1, hc2, h1]

/-! ## Token lemmas over chunked input -/

theorem takeWhile_append_of {p : Char → Bool} {a b : List Char}
    (ha : ∀ c ∈ a, p c = true) (hb : ∀ c, b.head? = some c → p c = false) :
    (a ++ b).takeWhile p = a ∧ (a ++ b).dropWhile p = b := by
  induction a with
  | nil =>
    cases b with
    | nil => exact ⟨rfl, rfl⟩
    | cons c b =>
      have := hb c rfl
      simp [List.takeWhile, List.dropWhile, this]
  | cons c a ih =>
    have hc := ha c (List.mem_cons_self _ _)
    have h2 := ih (fun c' hc' => ha c' (List.mem_cons_of_mem _ hc'))
    simp [List.takeWhile, List.dropWhile, hc, h2.1, h2.2]

theorem alnum_of_alpha {c : Char} (h : isAsciiAlpha c = true) :
    isAsciiAlnum c = true := by
  simp [isAsciiAlpha] at h
  simp [isAsciiAlnum]
  tauto

theorem idchar_of_alnum {c : Char} (h : isAsciiAlnum c = true) :
    isIdChar c = true := by
  simp [isIdChar, h]

theorem headNot_alpha_of_id {x : List Char}
    (h : ∀ c, x.head? = some c → isIdChar c = false) :
    ∀ c, x.head? = some c → isAsciiAlpha c = false := by
  intro c hc
  have hid := h c hc
  cases halpha : isAsciiAlpha c
  · rfl
  · rw [idchar_of_alnum (alnum_of_alpha halpha)] at hid
    cases hid

theorem headNot_alnum_of_id {x : List Char}
    (h : ∀ c, x.head? = some c → isIdChar c = false) :
    ∀ c, x.head? = some c → isAsciiAlnum c = false := by
  intro c hc
  have hid := h c hc
  cases halnum : isAsciiAlnum c
  · rfl
  · rw [idchar_of_alnum halnum] at hid
    cases hid

theorem wsc_head {ch : List Char} (hch : Wsc ch) :
    ch = [] ∨ ∃ c r, ch = c :: r ∧ (isWsChar c = true ∨ c = ';' ∨ c = '(') := by
  cases hch with
  | nil => exact .inl rfl
  | cons ha _hb =>
    cases ha with
    | ws c hc => exact .inr ⟨c, _, rfl, .inl hc⟩
    | line cs h2 => exact .inr ⟨';', _, rfl, .inr (.inl rfl)⟩
    | block cs h2 => exact .inr ⟨'(', _, rfl, .inr (.inr rfl)⟩

theorem headNot_id_wsc {ch : List Char} (h : Wsc ch) {x : List Char}
    (hx : ∀ c, x.head? = some c → isIdChar c = false) :
    ∀ c, (ch ++ x).head? = some c → isIdChar c = false := by
  rcases wsc_head h with rfl | ⟨c, r, rfl, hc⟩
  · simpa using hx
  · intro c' hc'
    simp at hc'
    subst hc'
    rcases hc with hws | rfl | rfl
    · rcases wsChar_cases hws with rfl | rfl | rfl | rfl <;> decide
    · decide
    · decide

theorem head_append_ne {x y : List Char} {ch : Char}
    (hx : x.head? ≠ some ch) (hy : y.head? ≠ some ch) :
    (x ++ y).head? ≠ some ch := by
  cases x
  · simpa using hy
  · simpa using hx

theorem sp_stop_plain {c : Char} {t : List Char} (h1 : isWsChar c = false)
    (h2 : c ≠ ';') (h3 : c ≠ '(') : sp (c :: t) = c :: t :=
  sp_stop h1 (fun hc => False.elim (absurd hc (not_or.mpr ⟨h2, h3⟩)))

theorem sp_stop_lparen {t : List Char} (h : t.head? ≠ some ';') :
    sp ('(' :: t) = '(' :: t :=
  sp_stop (by decide) (fun _ => h)

theorem ptag_self (tg r : List Char) : ptag tg (tg ++ r) = .ok r () := by
  induction tg with
  | nil => rfl
  | cons c t ih => simp [ptag, ih]

theorem pidentifier_self {nm rest : List Char}
    (hnm : ∀ c ∈ nm, isIdChar c = true)
    (hrest : ∀ c, rest.head? = some c → isIdChar c = false) :
    pidentifier ('$' :: (nm ++ rest)) = .ok rest nm := by
  have h := takeWhile_append_of hnm hrest
  simp [pidentifier, h.1, h.2]

theorem pkeyword_func {rest : List Char}
    (h : ∀ c, rest.head? = some c → isIdChar c = false) :
    pkeyword ("func".data ++ rest) = .ok rest "func".data := by
  have h4 : ∀ c ∈ "func".data, isAsciiAlpha c = true := by decide
  have ha := takeWhile_append_of h4 (headNot_alpha_of_id h)
  have h5 := takeWhile_append_of (p := isIdChar) (a := []) (b := rest) (by simp) h
  simp only [List.nil_append] at h5
  simp only [pkeyword, ha.1, ha.2, h5.1, h5.2]
  rw [if_neg (by decide), List.append_nil]

theorem pvaltype_i32 {rest : List Char}
    (h : ∀ c, rest.head? = some c → isIdChar c = false) :
    pvaltype ("i32".data ++ rest) = .ok rest ValType.i32 := by
  have h32 : ∀ c ∈ ['3', '2'], isIdChar c = true := by decide
  have hb := takeWhile_append_of h32 h
  simp only [List.cons_append, List.nil_append] at hb
  have e1 : ("i32".data ++ rest).takeWhile isAsciiAlpha = ['i'] := rfl
  have e2 : ("i32".data ++ rest).dropWhile isAsciiAlpha = '3' :: '2' :: rest := rfl
  rw [pvaltype, pkeyword, e1, e2]
  simp only [List.isEmpty_cons, hb.1, hb.2]
  norm_num
  rw [if_neg (by decide), if_neg (by decide), if_neg (by decide)]

theorem pinstr_localget {rest : List Char}
    (h : ∀ c, rest.head? = some c → isAsciiAlnum c = false) :
    pinstrTok ("local.get".data ++ rest) = .ok rest Instr.localGet := by
  have hget : ∀ c ∈ "get".data, isAsciiAlnum c = true := by decide
  have hb := takeWhile_append_of hget h
  simp only [List.cons_append, List.nil_append] at hb
  have e1 : ("local.get".data ++ rest).takeWhile isAsciiAlnum = "local".data := rfl
  have e2 : ("local.get".data ++ rest).dropWhile isAsciiAlnum =
      '.' :: ("get".data ++ rest) := rfl
  rw [pinstrTok, e1, e2]
  simp only [List.cons_append, List.nil_append] at hb ⊢
  simp only [hb.1, hb.2]
  norm_num

theorem pstring_add (rest : List Char) :
    pstring ("\"add\"".data ++ rest) = .ok rest "add".data := rfl

theorem pchar_self (c : Char) (r : List Char) : pchar c (c :: r) = .ok r () := by
  simp [pchar]

/-! ## Parser step lemmas -/

theorem pws_err {α : Type} {p : List Char → PRes α} {s : List Char}
    (h : p (sp s) = .err) : pws p s = .err := by
  unfold pws
  rw [h]

theorem psexpr_err {α : Type} {inner : List Char → PRes α} {s : List Char}
    (h : pws (pchar '(') s = .err) : psexpr inner s = .err := by
  unfold psexpr
  rw [h]

theorem pws_pchar_err_head {c0 : Char} {t : List Char}
    (hsp : sp (c0 :: t) = c0 :: t) (hne : c0 ≠ '(') :
    pws (pchar '(') (c0 :: t) = .err := by
  unfold pws
  rw [hsp]
  simp [pchar, hne]

theorem pws_lparen {a b x : List Char}
    (h1 : Wsc a) (h2 : Wsc b) (hx : (b ++ x).head? ≠ some ';')
    (hxsp : sp x = x) :
    pws (pchar '(') (a ++ ('(' :: (b ++ x))) = .ok x () := by
  unfold pws
  rw [sp_wsc h1, sp_stop_lparen hx, pchar_self]
  show PRes.ok (sp (b ++ x)) () = PRes.ok x ()
  rw [sp_wsc h2, hxsp]

theorem pws_token {α : Type} {p : List Char → PRes α} {v : α}
    {a b g x : List Char}
    (h1 : Wsc a) (h2 : Wsc b)
    (hstop1 : sp (g ++ (b ++ x)) = g ++ (b ++ x))
    (hp : p (g ++ (b ++ x)) = .ok (b ++ x) v)
    (hstop2 : sp x = x) :
    pws p (a ++ (g ++ (b ++ x))) = .ok x v := by
  unfold pws
  rw [sp_wsc h1, hstop1, hp]
  show PRes.ok (sp (b ++ x)) v = PRes.ok x v
  rw [sp_wsc h2, hstop2]

theorem pexprF_of_func {n : Nat} (h : 0 < n) {s r : List Char} {f : Func}
    (hf : pfuncWith (fun u => pexprF (n - 1) u) s = .ok r f) :
    pexprF n s = .ok r (.efunc f) := by
  obtain ⟨n', rfl⟩ : ∃ n', n = n' + 1 := ⟨n - 1, by omega⟩
  rw [show n' + 1 - 1 = n' from rfl] at hf
  simp [pexprF, hf]

theorem pexprF_of_exp {n : Nat} (h : 0 < n) {s r : List Char} {e : Export}
    (hf : pfuncWith (fun u => pexprF (n - 1) u) s = .err)
    (he : pexportP s = .ok r e) :
    pexprF n s = .ok r (.eexp e) := by
  obtain ⟨n', rfl⟩ : ∃ n', n = n' + 1 := ⟨n - 1, by omega⟩
  rw [show n' + 1 - 1 = n' from rfl] at hf
  simp [pexprF, hf, he]

theorem pexprF_of_instr {n : Nat} (h : 0 < n) {s r : List Char} {i : Instr}
    (hf : pfuncWith (fun u => pexprF (n - 1) u) s = .err)
    (he : pexportP s = .err)
    (hi : pinstrTok s = .ok r i) :
    pexprF n s = .ok r (.instr i) := by
  obtain ⟨n', rfl⟩ : ∃ n', n = n' + 1 := ⟨n - 1, by omega⟩
  rw [show n' + 1 - 1 = n' from rfl] at hf
  simp [pexprF, hf, he, hi]

theorem pexprF_of_ident {n : Nat} (h : 0 < n) {s r nm : List Char}
    (hf : pfuncWith (fun u => pexprF (n - 1) u) s = .err)
    (he : pexportP s = .err)
    (hi : pinstrTok s = .err)
    (hid : pidentifier s = .ok r nm) :
    pexprF n s = .ok r (.ident nm) := by
  obtain ⟨n', rfl⟩ : ∃ n', n = n' + 1 := ⟨n - 1, by omega⟩
  rw [show n' + 1 - 1 = n' from rfl] at hf
  simp [pexprF, hf, he, hi, hid]

theorem pexprF_err_rparen (n : Nat) (t : List Char) :
    pexprF n (')' :: t) = .err := by
  cases n with
  | zero => rfl
  | succ n' =>
    have hsp : sp (')' :: t) = ')' :: t :=
      sp_stop_plain (by decide) (by decide) (by decide)
    have hf : pfuncWith (fun u => pexprF n' u) (')' :: t) = .err :=
      psexpr_err (pws_pchar_err_head hsp (by decide))
    have he : pexportP (')' :: t) = .err :=
      psexpr_err (pws_pchar_err_head hsp (by decide))
    have hi : pinstrTok (')' :: t) = .err := rfl
    have hid : pidentifier (')' :: t) = .err := rfl
    simp [pexprF, hf, he, hi, hid]

theorem pmany0F_step {α : Type} {p : List Char → PRes α} {fuel : Nat}
    {s r r2 : List Char} {v : α} {vs : List α}
    (hfuel : s.length < fuel) (hp : p s = .ok r v) (hlt : r.length < s.length)
    (hrec : pmany0F (fuel - 1) p r = .ok r2 vs) :
    pmany0F fuel p s = .ok r2 (v :: vs) := by
  obtain ⟨f', rfl⟩ : ∃ f', fuel = f' + 1 := ⟨fuel - 1, by omega⟩
  rw [show f' + 1 - 1 = f' from rfl] at hrec
  simp [pmany0F, hp, hlt, hrec]

theorem pmany0F_stop {α : Type} {p : List Char → PRes α} {fuel : Nat}
    {s : List Char} (hfuel : 0 < fuel) (hp : p s = .err) :
    pmany0F fuel p s = .ok s [] := by
  obtain ⟨f', rfl⟩ : ∃ f', fuel = f' + 1 := ⟨fuel - 1, by omega⟩
  simp [pmany0F, hp]

theorem pkidsF_step_func {n fuel : Nat} {s r r2 : List Char} {fn : Func}
    {fs : List Func} {es : List Export}
    (hfuel : s.length < fuel)
    (hp : pws (pexprF n) s = .ok r (.efunc fn))
    (hlt : r.length < s.length)
    (hrec : pkidsF (fuel - 1) n r = .ok r2 (fs, es)) :
    pkidsF fuel n s = .ok r2 (fn :: fs, es) := by
  obtain ⟨f', rfl⟩ : ∃ f', fuel = f' + 1 := ⟨fuel - 1, by omega⟩
  rw [show f' + 1 - 1 = f' from rfl] at hrec
  simp [pkidsF, hp, hlt, hrec]

theorem pkidsF_step_exp {n fuel : Nat} {s r r2 : List Char} {ex : Export}
    {fs : List Func} {es : List Export}
    (hfuel : s.length < fuel)
    (hp : pws (pexprF n) s = .ok r (.eexp ex))
    (hlt : r.length < s.length)
    (hrec : pkidsF (fuel - 1) n r = .ok r2 (fs, es)) :
    pkidsF fuel n s = .ok r2 (fs, ex :: es) := by
  obtain ⟨f', rfl⟩ : ∃ f', fuel = f' + 1 := ⟨fuel - 1, by omega⟩
  rw [show f' + 1 - 1 = f' from rfl] at hrec
  simp [pkidsF, hp, hlt, hrec]

theorem pkidsF_stop {n fuel : Nat} {s : List Char}
    (hfuel : 0 < fuel) (hp : pws (pexprF n) s = .err) :
    pkidsF fuel n s = .ok s ([], []) := by
  obtain ⟨f', rfl⟩ : ∃ f', fuel = f' + 1 := ⟨fuel - 1, by omega⟩
  simp [pkidsF, hp]

theorem headNot_id_wsc_ne {ch : List Char} (h : Wsc ch) (hne : ch ≠ []) :
    ∀ (x : List Char) c, (ch ++ x).head? = some c → isIdChar c = false := by
  rcases wsc_head h with rfl | ⟨c, r, rfl, hc⟩
  · exact absurd rfl hne
  · intro x c' hc'
    simp at hc'
    subst hc'
    rcases hc with hws | rfl | rfl
    · rcases wsChar_cases hws with rfl | rfl | rfl | rfl <;> decide
    · decide
    · decide

theorem headNot_alnum_wsc {ch : List Char} (h : Wsc ch) {x : List Char}
    (hx : ∀ c, x.head? = some c → isAsciiAlnum c = false) :
    ∀ c, (ch ++ x).head? = some c → isAsciiAlnum c = false := by
  rcases wsc_head h with rfl | ⟨c, r, rfl, hc⟩
  · simpa using hx
  · intro c' hc'
    simp at hc'
    subst hc'
    rcases hc with hws | rfl | rfl
    · rcases wsChar_cases hws with rfl | rfl | rfl | rfl <;> decide
    · decide
    · decide

theorem headNot_id_cons {c0 : Char} (h : isIdChar c0 = false) (t : List Char) :
    ∀ c, ((c0 :: t).head?) = some c → isIdChar c = false := by
  intro c hc
  simp at hc
  subst hc
  exact h

theorem headNot_alnum_cons {c0 : Char} (h : isAsciiAlnum c0 = false)
    (t : List Char) :
    ∀ c, ((c0 :: t).head?) = some c → isAsciiAlnum c = false := by
  intro c hc
  simp at hc
  subst hc
  exact h

theorem head_cons_ne {c c' : Char} (h : c ≠ c') (t : List Char) :
    (c :: t).head? ≠ some c' := by
  simp [h]

theorem pws_of {α : Type} {p : List Char → PRes α} {s r r' : List Char} {v : α}
    (hsp : sp s = s) (hp : p s = .ok r v) (hr : sp r = r') :
    pws p s = .ok r' v := by
  unfold pws
  rw [hsp, hp]
  show PRes.ok (sp r) v = PRes.ok r' v
  rw [hr]

theorem pws_err_of {α : Type} {p : List Char → PRes α} {s : List Char}
    (hsp : sp s = s) (hp : p s = .err) : pws p s = .err := by
  unfold pws
  rw [hsp, hp]

theorem pws_rparen (tail : List Char) :
    pws (pchar ')') (')' :: tail) = .ok (sp tail) () := by
  unfold pws
  rw [sp_stop_plain (by decide) (by decide) (by decide), pchar_self]

theorem pws_rparen_chunk {c : List Char} (h : Wsc c) (tail : List Char) :
    pws (pchar ')') (c ++ (')' :: tail)) = .ok (sp tail) () := by
  unfold pws
  rw [sp_wsc h, sp_stop_plain (by decide) (by decide) (by decide), pchar_self]

/-! ## Form-level parsing lemmas for the representative module -/

theorem pparam_family {a4 a5 a6 a7 t : List Char}
    (h4 : Wsc a4) (h5 : Wsc a5) (h6 : Wsc a6) (h7 : Wsc a7)
    (h4h : a4.head? ≠ some ';') (h6ne : a6 ≠ []) :
    pparam ('(' :: (a4 ++ ("param".data ++ (a5 ++ ('$' :: ("p0".data ++
      (a6 ++ ("i32".data ++ (a7 ++ (')' :: t)))))))))) =
    .ok (sp t) ("p0".data, ValType.i32) := by
  have e1 : pws (pchar '(') ('(' :: (a4 ++ ("param".data ++ (a5 ++ ('$' ::
      ("p0".data ++ (a6 ++ ("i32".data ++ (a7 ++ (')' :: t)))))))))) =
      .ok ("param".data ++ (a5 ++ ('$' :: ("p0".data ++
        (a6 ++ ("i32".data ++ (a7 ++ (')' :: t)))))))) () := by
    simpa using pws_lparen (a := []) (b := a4)
      (x := "param".data ++ (a5 ++ ('$' :: ("p0".data ++
        (a6 ++ ("i32".data ++ (a7 ++ (')' :: t))))))))
      Wsc.nil h4
      (head_append_ne h4h (head_cons_ne (show 'p' ≠ ';' by decide) _))
      (sp_stop_plain (by decide) (by decide) (by decide))
  have e2 : pws (ptag "param".data) ("param".data ++ (a5 ++ ('$' ::
      ("p0".data ++ (a6 ++ ("i32".data ++ (a7 ++ (')' :: t)))))))) =
      .ok ('$' :: ("p0".data ++ (a6 ++ ("i32".data ++ (a7 ++ (')' :: t)))))) () := by
    simpa using pws_token (a := []) (b := a5) (g := "param".data)
      (x := '$' :: ("p0".data ++ (a6 ++ ("i32".data ++ (a7 ++ (')' :: t))))))
      Wsc.nil h5
      (sp_stop_plain (by decide) (by decide) (by decide))
      (ptag_self "param".data _)
      (sp_stop_plain (by decide) (by decide) (by decide))
  have e3 : pidentifier ('$' :: ("p0".data ++ (a6 ++ ("i32".data ++
      (a7 ++ (')' :: t)))))) =
      .ok (a6 ++ ("i32".data ++ (a7 ++ (')' :: t)))) "p0".data :=
    pidentifier_self (by decide) (headNot_id_wsc_ne h6 h6ne _)
  have e4 : pws pvaltype (a6 ++ ("i32".data ++ (a7 ++ (')' :: t)))) =
      .ok (')' :: t) ValType.i32 :=
    pws_token (a := a6) (b := a7) (g := "i32".data) (x := ')' :: t)
      h6 h7
      (sp_stop_plain (by decide) (by decide) (by decide))
      (pvaltype_i32 (headNot_id_wsc h7 (headNot_id_cons (by decide) _)))
      (sp_stop_plain (by decide) (by decide) (by decide))
  simp only [pparam, psexpr, e1, e2, e3, e4, pws_rparen]

theorem presult_family {a9 a10 a11 t : List Char}
    (h9 : Wsc a9) (h10 : Wsc a10) (h11 : Wsc a11)
    (h9h : a9.head? ≠ some ';') :
    presult ('(' :: (a9 ++ ("result".data ++ (a10 ++ ("i32".data ++
      (a11 ++ (')' :: t))))))) =
    .ok (sp t) ValType.i32 := by
  have e1 : pws (pchar '(') ('(' :: (a9 ++ ("result".data ++ (a10 ++
      ("i32".data ++ (a11 ++ (')' :: t))))))) =
      .ok ("result".data ++ (a10 ++ ("i32".data ++ (a11 ++ (')' :: t))))) () := by
    simpa using pws_lparen (a := []) (b := a9)
      (x := "result".data ++ (a10 ++ ("i32".data ++ (a11 ++ (')' :: t)))))
      Wsc.nil h9
      (head_append_ne h9h (head_cons_ne (show 'r' ≠ ';' by decide) _))
      (sp_stop_plain (by decide) (by decide) (by decide))
  have e2 : pws (ptag "result".data) ("result".data ++ (a10 ++
      ("i32".data ++ (a11 ++ (')' :: t))))) =
      .ok ("i32".data ++ (a11 ++ (')' :: t))) () := by
    simpa using pws_token (a := []) (b := a10) (g := "result".data)
      (x := "i32".data ++ (a11 ++ (')' :: t)))
      Wsc.nil h10
      (sp_stop_plain (by decide) (by decide) (by decide))
      (ptag_self "result".data _)
      (sp_stop_plain (by decide) (by decide) (by decide))
  have e3 : pvaltype ("i32".data ++ (a11 ++ (')' :: t))) =
      .ok (a11 ++ (')' :: t)) ValType.i32 :=
    pvaltype_i32 (headNot_id_wsc h11 (headNot_id_cons (by decide) _))
  simp only [presult, psexpr, e1, e2, e3, pws_rparen_chunk h11]

theorem pexport_family {b1 b2 b3 b4 b5 b6 b7 t : List Char}
    (h1 : Wsc b1) (h2 : Wsc b2) (h3 : Wsc b3) (h4 : Wsc b4) (h5 : Wsc b5)
    (h6 : Wsc b6) (h7 : Wsc b7)
    (h1h : b1.head? ≠ some ';') (h4h : b4.head? ≠ some ';') (h5ne : b5 ≠ []) :
    pexportP ('(' :: (b1 ++ ("export".data ++ (b2 ++ ('"' :: ("add".data ++
      ('"' :: (b3 ++ ('(' :: (b4 ++ ("func".data ++ (b5 ++ ('$' ::
      ("add".data ++ (b6 ++ (')' :: (b7 ++ (')' :: t)))))))))))))))))) =
    .ok (sp t) (Export.mk "add".data "add".data .func) := by
  have e1 : pws (pchar '(') ('(' :: (b1 ++ ("export".data ++ (b2 ++ ('"' ::
      ("add".data ++ ('"' :: (b3 ++ ('(' :: (b4 ++ ("func".data ++ (b5 ++
      ('$' :: ("add".data ++ (b6 ++ (')' :: (b7 ++ (')' :: t)))))))))))))))))) =
      .ok ("export".data ++ (b2 ++ ('"' :: ("add".data ++ ('"' :: (b3 ++
        ('(' :: (b4 ++ ("func".data ++ (b5 ++ ('$' :: ("add".data ++
        (b6 ++ (')' :: (b7 ++ (')' :: t)))))))))))))))) () := by
    simpa using pws_lparen (a := []) (b := b1)
      (x := "export".data ++ (b2 ++ ('"' :: ("add".data ++ ('"' :: (b3 ++
        ('(' :: (b4 ++ ("func".data ++ (b5 ++ ('$' :: ("add".data ++
        (b6 ++ (')' :: (b7 ++ (')' :: t))))))))))))))))
      Wsc.nil h1
      (head_append_ne h1h (head_cons_ne (show 'e' ≠ ';' by decide) _))
      (sp_stop_plain (by decide) (by decide) (by decide))
  have e2 : pws (ptag "export".data) ("export".data ++ (b2 ++ ('"' ::
      ("add".data ++ ('"' :: (b3 ++ ('(' :: (b4 ++ ("func".data ++ (b5 ++
      ('$' :: ("add".data ++ (b6 ++ (')' :: (b7 ++ (')' :: t)))))))))))))))) =
      .ok ('"' :: ("add".data ++ ('"' :: (b3 ++ ('(' :: (b4 ++
        ("func".data ++ (b5 ++ ('$' :: ("add".data ++ (b6 ++ (')' ::
        (b7 ++ (')' :: t)))))))))))))) () := by
    simpa using pws_token (a := []) (b := b2) (g := "export".data)
      (x := '"' :: ("add".data ++ ('"' :: (b3 ++ ('(' :: (b4 ++
        ("func".data ++ (b5 ++ ('$' :: ("add".data ++ (b6 ++ (')' ::
        (b7 ++ (')' :: t))))))))))))))
      Wsc.nil h2
      (sp_stop_plain (by decide) (by decide) (by decide))
      (ptag_self "export".data _)
      (sp_stop_plain (by decide) (by decide) (by decide))
  have e3 : pws pstring ('"' :: ("add".data ++ ('"' :: (b3 ++ ('(' :: (b4 ++
      ("func".data ++ (b5 ++ ('$' :: ("add".data ++ (b6 ++ (')' ::
      (b7 ++ (')' :: t)))))))))))))) =
      .ok ('(' :: (b4 ++ ("func".data ++ (b5 ++ ('$' :: ("add".data ++
        (b6 ++ (')' :: (b7 ++ (')' :: t)))))))))) "add".data := by
    exact pws_token (a := []) (b := b3) (g := "\"add\"".data)
      (x := '(' :: (b4 ++ ("func".data ++ (b5 ++ ('$' :: ("add".data ++
        (b6 ++ (')' :: (b7 ++ (')' :: t))))))))))
      Wsc.nil h3
      (sp_stop_plain (by decide) (by decide) (by decide))
      (pstring_add _)
      (sp_stop_lparen (head_append_ne h4h (head_cons_ne (show 'f' ≠ ';' by decide) _)))
  have e4 : pws (pchar '(') ('(' :: (b4 ++ ("func".data ++ (b5 ++ ('$' ::
      ("add".data ++ (b6 ++ (')' :: (b7 ++ (')' :: t)))))))))) =
      .ok ("func".data ++ (b5 ++ ('$' :: ("add".data ++ (b6 ++ (')' ::
        (b7 ++ (')' :: t)))))))) () := by
    simpa using pws_lparen (a := []) (b := b4)
      (x := "func".data ++ (b5 ++ ('$' :: ("add".data ++ (b6 ++ (')' ::
        (b7 ++ (')' :: t))))))))
      Wsc.nil h4
      (head_append_ne h4h (head_cons_ne (show 'f' ≠ ';' by decide) _))
      (sp_stop_plain (by decide) (by decide) (by decide))
  have e5 : pws pkeyword ("func".data ++ (b5 ++ ('$' :: ("add".data ++
      (b6 ++ (')' :: (b7 ++ (')' :: t)))))))) =
      .ok ('$' :: ("add".data ++ (b6 ++ (')' :: (b7 ++ (')' :: t))))))
        "func".data := by
    simpa using pws_token (a := []) (b := b5) (g := "func".data)
      (x := '$' :: ("add".data ++ (b6 ++ (')' :: (b7 ++ (')' :: t))))))
      Wsc.nil h5
      (sp_stop_plain (by decide) (by decide) (by decide))
      (pkeyword_func (headNot_id_wsc_ne h5 h5ne _))
      (sp_stop_plain (by decide) (by decide) (by decide))
  have e6 : pidentifier ('$' :: ("add".data ++ (b6 ++ (')' :: (b7 ++
      (')' :: t)))))) =
      .ok (b6 ++ (')' :: (b7 ++ (')' :: t)))) "add".data :=
    pidentifier_self (by decide) (headNot_id_wsc h6 (headNot_id_cons (by decide) _))
  have e7 : sp (b7 ++ (')' :: t)) = ')' :: t := by
    rw [sp_wsc h7, sp_stop_plain (by decide) (by decide) (by decide)]
  simp only [pexportP, psexpr, e1, e2, e3, e4, e5, e6,
    pws_rparen_chunk h6, e7, pws_rparen, if_true]

theorem pws_of2 {α : Type} {p : List Char → PRes α} {s s' r r' : List Char}
    {v : α} (hsp : sp s = s') (hp : p s' = .ok r v) (hr : sp r = r') :
    pws p s = .ok r' v := by
  unfold pws
  rw [hsp, hp]
  show PRes.ok (sp r) v = PRes.ok r' v
  rw [hr]

theorem pws_err_of2 {α : Type} {p : List Char → PRes α} {s s' : List Char}
    (hsp : sp s = s') (hp : p s' = .err) : pws p s = .err := by
  unfold pws
  rw [hsp, hp]

theorem pwsOpt_of {α : Type} {p : List Char → PRes α} {s s' r r' : List Char}
    {v : α} (hsp : sp s = s') (hp : p s' = .ok r v) (hr : sp r = r') :
    pwsOpt p s = .ok r' (some v) := by
  unfold pwsOpt
  rw [hsp, hp]
  show PRes.ok (sp r) (some v) = PRes.ok r' (some v)
  rw [hr]

theorem len_func : ("func".data).length = 4 := rfl
theorem len_param : ("param".data).length = 5 := rfl
theorem len_result : ("result".data).length = 6 := rfl
theorem len_export : ("export".data).length = 6 := rfl
theorem len_module : ("module".data).length = 6 := rfl
theorem len_localget : ("local.get".data).length = 9 := rfl
theorem len_i32 : ("i32".data).length = 3 := rfl
theorem len_p0 : ("p0".data).length = 2 := rfl
theorem len_add : ("add".data).length = 3 := rfl



theorem pfunc_family {m : Nat} {a1 a2 a3 a4 a5 a6 a7 a8 a9 a10 a11 a12 a13 a14 t : List Char}
    (hm : 0 < m)
    (w1 : Wsc a1) (w2 : Wsc a2) (w3 : Wsc a3) (w4 : Wsc a4) (w5 : Wsc a5)
    (w6 : Wsc a6) (w7 : Wsc a7) (w8 : Wsc a8) (w9 : Wsc a9) (w10 : Wsc a10)
    (w11 : Wsc a11) (w12 : Wsc a12) (w13 : Wsc a13) (w14 : Wsc a14)
    (p1 : a1.head? ≠ some ';') (p4 : a4.head? ≠ some ';')
    (p9 : a9.head? ≠ some ';') (ne6 : a6 ≠ []) :
    pfuncWith (fun u => pexprF m u) ('(' :: (a1 ++ ("func".data ++ (a2 ++ ('$' :: ("add".data ++ (a3 ++ ('(' :: (a4 ++ ("param".data ++ (a5 ++ ('$' :: ("p0".data ++ (a6 ++ ("i32".data ++ (a7 ++ (')' :: (a8 ++ ('(' :: (a9 ++ ("result".data ++ (a10 ++ ("i32".data ++ (a11 ++ (')' :: (a12 ++ ("local.get".data ++ (a13 ++ ('$' :: ("p0".data ++ (a14 ++ (')' :: (t))))))))))))))))))))))))))))))))) =
    .ok (sp t) (Func.mk "add".data [("p0".data, ValType.i32)]
      (some ValType.i32) [Expr.instr .localGet, Expr.ident "p0".data]) := by
  have e1 : pws (pchar '(') ('(' :: (a1 ++ ("func".data ++ (a2 ++ ('$' :: ("add".data ++ (a3 ++ ('(' :: (a4 ++ ("param".data ++ (a5 ++ ('$' :: ("p0".data ++ (a6 ++ ("i32".data ++ (a7 ++ (')' :: (a8 ++ ('(' :: (a9 ++ ("result".data ++ (a10 ++ ("i32".data ++ (a11 ++ (')' :: (a12 ++ ("local.get".data ++ (a13 ++ ('$' :: ("p0".data ++ (a14 ++ (')' :: (t))))))))))))))))))))))))))))))))) = .ok ("func".data ++ (a2 ++ ('$' :: ("add".data ++ (a3 ++ ('(' :: (a4 ++ ("param".data ++ (a5 ++ ('$' :: ("p0".data ++ (a6 ++ ("i32".data ++ (a7 ++ (')' :: (a8 ++ ('(' :: (a9 ++ ("result".data ++ (a10 ++ ("i32".data ++ (a11 ++ (')' :: (a12 ++ ("local.get".data ++ (a13 ++ ('$' :: ("p0".data ++ (a14 ++ (')' :: (t))))))))))))))))))))))))))))))) () := by
    simpa using pws_lparen (a := []) (b := a1) (x := "func".data ++ (a2 ++ ('$' :: ("add".data ++ (a3 ++ ('(' :: (a4 ++ ("param".data ++ (a5 ++ ('$' :: ("p0".data ++ (a6 ++ ("i32".data ++ (a7 ++ (')' :: (a8 ++ ('(' :: (a9 ++ ("result".data ++ (a10 ++ ("i32".data ++ (a11 ++ (')' :: (a12 ++ ("local.get".data ++ (a13 ++ ('$' :: ("p0".data ++ (a14 ++ (')' :: (t)))))))))))))))))))))))))))))))
      Wsc.nil w1
      (head_append_ne p1 (head_cons_ne (show 'f' ≠ ';' by decide) _))
      (sp_stop_plain (by decide) (by decide) (by decide))
  have e2 : pws (ptag "func".data) ("func".data ++ (a2 ++ ('$' :: ("add".data ++ (a3 ++ ('(' :: (a4 ++ ("param".data ++ (a5 ++ ('$' :: ("p0".data ++ (a6 ++ ("i32".data ++ (a7 ++ (')' :: (a8 ++ ('(' :: (a9 ++ ("result".data ++ (a10 ++ ("i32".data ++ (a11 ++ (')' :: (a12 ++ ("local.get".data ++ (a13 ++ ('$' :: ("p0".data ++ (a14 ++ (')' :: (t))))))))))))))))))))))))))))))) = .ok ('$' :: ("add".data ++ (a3 ++ ('(' :: (a4 ++ ("param".data ++ (a5 ++ ('$' :: ("p0".data ++ (a6 ++ ("i32".data ++ (a7 ++ (')' :: (a8 ++ ('(' :: (a9 ++ ("result".data ++ (a10 ++ ("i32".data ++ (a11 ++ (')' :: (a12 ++ ("local.get".data ++ (a13 ++ ('$' :: ("p0".data ++ (a14 ++ (')' :: (t))))))))))))))))))))))))))))) () := by
    simpa using pws_token (a := []) (b := a2) (g := "func".data)
      (x := '$' :: ("add".data ++ (a3 ++ ('(' :: (a4 ++ ("param".data ++ (a5 ++ ('$' :: ("p0".data ++ (a6 ++ ("i32".data ++ (a7 ++ (')' :: (a8 ++ ('(' :: (a9 ++ ("result".data ++ (a10 ++ ("i32".data ++ (a11 ++ (')' :: (a12 ++ ("local.get".data ++ (a13 ++ ('$' :: ("p0".data ++ (a14 ++ (')' :: (t)))))))))))))))))))))))))))))
      Wsc.nil w2
      (sp_stop_plain (by decide) (by decide) (by decide))
      (ptag_self "func".data _)
      (sp_stop_plain (by decide) (by decide) (by decide))
  have e3 : pidentifier ('$' :: ("add".data ++ (a3 ++ ('(' :: (a4 ++ ("param".data ++ (a5 ++ ('$' :: ("p0".data ++ (a6 ++ ("i32".data ++ (a7 ++ (')' :: (a8 ++ ('(' :: (a9 ++ ("result".data ++ (a10 ++ ("i32".data ++ (a11 ++ (')' :: (a12 ++ ("local.get".data ++ (a13 ++ ('$' :: ("p0".data ++ (a14 ++ (')' :: (t))))))))))))))))))))))))))))) = .ok (a3 ++ ('(' :: (a4 ++ ("param".data ++ (a5 ++ ('$' :: ("p0".data ++ (a6 ++ ("i32".data ++ (a7 ++ (')' :: (a8 ++ ('(' :: (a9 ++ ("result".data ++ (a10 ++ ("i32".data ++ (a11 ++ (')' :: (a12 ++ ("local.get".data ++ (a13 ++ ('$' :: ("p0".data ++ (a14 ++ (')' :: (t))))))))))))))))))))))))))) "add".data :=
    pidentifier_self (by decide) (headNot_id_wsc w3 (headNot_id_cons (by decide) _))
  have hX3 : sp (a3 ++ ('(' :: (a4 ++ ("param".data ++ (a5 ++ ('$' :: ("p0".data ++ (a6 ++ ("i32".data ++ (a7 ++ (')' :: (a8 ++ ('(' :: (a9 ++ ("result".data ++ (a10 ++ ("i32".data ++ (a11 ++ (')' :: (a12 ++ ("local.get".data ++ (a13 ++ ('$' :: ("p0".data ++ (a14 ++ (')' :: (t))))))))))))))))))))))))))) = '(' :: (a4 ++ ("param".data ++ (a5 ++ ('$' :: ("p0".data ++ (a6 ++ ("i32".data ++ (a7 ++ (')' :: (a8 ++ ('(' :: (a9 ++ ("result".data ++ (a10 ++ ("i32".data ++ (a11 ++ (')' :: (a12 ++ ("local.get".data ++ (a13 ++ ('$' :: ("p0".data ++ (a14 ++ (')' :: (t))))))))))))))))))))))))) := by
    rw [sp_wsc w3]
    exact sp_stop_lparen (head_append_ne p4 (head_cons_ne (show 'p' ≠ ';' by decide) _))
  have hR1 : sp (a8 ++ ('(' :: (a9 ++ ("result".data ++ (a10 ++ ("i32".data ++ (a11 ++ (')' :: (a12 ++ ("local.get".data ++ (a13 ++ ('$' :: ("p0".data ++ (a14 ++ (')' :: (t)))))))))))))))) = '(' :: (a9 ++ ("result".data ++ (a10 ++ ("i32".data ++ (a11 ++ (')' :: (a12 ++ ("local.get".data ++ (a13 ++ ('$' :: ("p0".data ++ (a14 ++ (')' :: (t)))))))))))))) := by
    rw [sp_wsc w8]
    exact sp_stop_lparen (head_append_ne p9 (head_cons_ne (show 'r' ≠ ';' by decide) _))
  have hRes : sp ('(' :: (a9 ++ ("result".data ++ (a10 ++ ("i32".data ++ (a11 ++ (')' :: (a12 ++ ("local.get".data ++ (a13 ++ ('$' :: ("p0".data ++ (a14 ++ (')' :: (t))))))))))))))) = '(' :: (a9 ++ ("result".data ++ (a10 ++ ("i32".data ++ (a11 ++ (')' :: (a12 ++ ("local.get".data ++ (a13 ++ ('$' :: ("p0".data ++ (a14 ++ (')' :: (t)))))))))))))) :=
    sp_stop_lparen (head_append_ne p9 (head_cons_ne (show 'r' ≠ ';' by decide) _))
  have e4 : pws pparam (a3 ++ ('(' :: (a4 ++ ("param".data ++ (a5 ++ ('$' :: ("p0".data ++ (a6 ++ ("i32".data ++ (a7 ++ (')' :: (a8 ++ ('(' :: (a9 ++ ("result".data ++ (a10 ++ ("i32".data ++ (a11 ++ (')' :: (a12 ++ ("local.get".data ++ (a13 ++ ('$' :: ("p0".data ++ (a14 ++ (')' :: (t))))))))))))))))))))))))))) = .ok ('(' :: (a9 ++ ("result".data ++ (a10 ++ ("i32".data ++ (a11 ++ (')' :: (a12 ++ ("local.get".data ++ (a13 ++ ('$' :: ("p0".data ++ (a14 ++ (')' :: (t))))))))))))))) ("p0".data, ValType.i32) := by
    have hp := pparam_family (t := a8 ++ ('(' :: (a9 ++ ("result".data ++ (a10 ++ ("i32".data ++ (a11 ++ (')' :: (a12 ++ ("local.get".data ++ (a13 ++ ('$' :: ("p0".data ++ (a14 ++ (')' :: (t)))))))))))))))) w4 w5 w6 w7 p4 ne6
    rw [hR1] at hp
    exact pws_of2 hX3 hp hRes
  have e5 : pws pparam ('(' :: (a9 ++ ("result".data ++ (a10 ++ ("i32".data ++ (a11 ++ (')' :: (a12 ++ ("local.get".data ++ (a13 ++ ('$' :: ("p0".data ++ (a14 ++ (')' :: (t))))))))))))))) = .err := by
    have e5a : pws (pchar '(') ('(' :: (a9 ++ ("result".data ++ (a10 ++ ("i32".data ++ (a11 ++ (')' :: (a12 ++ ("local.get".data ++ (a13 ++ ('$' :: ("p0".data ++ (a14 ++ (')' :: (t))))))))))))))) = .ok ("result".data ++ (a10 ++ ("i32".data ++ (a11 ++ (')' :: (a12 ++ ("local.get".data ++ (a13 ++ ('$' :: ("p0".data ++ (a14 ++ (')' :: (t))))))))))))) () := by
      simpa using pws_lparen (a := []) (b := a9) (x := "result".data ++ (a10 ++ ("i32".data ++ (a11 ++ (')' :: (a12 ++ ("local.get".data ++ (a13 ++ ('$' :: ("p0".data ++ (a14 ++ (')' :: (t)))))))))))))
        Wsc.nil w9
        (head_append_ne p9 (head_cons_ne (show 'r' ≠ ';' by decide) _))
        (sp_stop_plain (by decide) (by decide) (by decide))
    have e5b : pws (ptag "param".data) ("result".data ++ (a10 ++ ("i32".data ++ (a11 ++ (')' :: (a12 ++ ("local.get".data ++ (a13 ++ ('$' :: ("p0".data ++ (a14 ++ (')' :: (t))))))))))))) = .err :=
      pws_err_of2 (sp_stop_plain (by decide) (by decide) (by decide)) rfl
    have hp : pparam ('(' :: (a9 ++ ("result".data ++ (a10 ++ ("i32".data ++ (a11 ++ (')' :: (a12 ++ ("local.get".data ++ (a13 ++ ('$' :: ("p0".data ++ (a14 ++ (')' :: (t))))))))))))))) = .err := by
      simp only [pparam, psexpr, e5a, e5b]
    exact pws_err_of2 hRes hp
  have e6 : pmany0F ((a3 ++ ('(' :: (a4 ++ ("param".data ++ (a5 ++ ('$' :: ("p0".data ++ (a6 ++ ("i32".data ++ (a7 ++ (')' :: (a8 ++ ('(' :: (a9 ++ ("result".data ++ (a10 ++ ("i32".data ++ (a11 ++ (')' :: (a12 ++ ("local.get".data ++ (a13 ++ ('$' :: ("p0".data ++ (a14 ++ (')' :: (t))))))))))))))))))))))))))).length + 1) (pws pparam) (a3 ++ ('(' :: (a4 ++ ("param".data ++ (a5 ++ ('$' :: ("p0".data ++ (a6 ++ ("i32".data ++ (a7 ++ (')' :: (a8 ++ ('(' :: (a9 ++ ("result".data ++ (a10 ++ ("i32".data ++ (a11 ++ (')' :: (a12 ++ ("local.get".data ++ (a13 ++ ('$' :: ("p0".data ++ (a14 ++ (')' :: (t))))))))))))))))))))))))))) =
      .ok ('(' :: (a9 ++ ("result".data ++ (a10 ++ ("i32".data ++ (a11 ++ (')' :: (a12 ++ ("local.get".data ++ (a13 ++ ('$' :: ("p0".data ++ (a14 ++ (')' :: (t))))))))))))))) [("p0".data, ValType.i32)] := by
    have hlt : ('(' :: (a9 ++ ("result".data ++ (a10 ++ ("i32".data ++ (a11 ++ (')' :: (a12 ++ ("local.get".data ++ (a13 ++ ('$' :: ("p0".data ++ (a14 ++ (')' :: (t))))))))))))))).length < (a3 ++ ('(' :: (a4 ++ ("param".data ++ (a5 ++ ('$' :: ("p0".data ++ (a6 ++ ("i32".data ++ (a7 ++ (')' :: (a8 ++ ('(' :: (a9 ++ ("result".data ++ (a10 ++ ("i32".data ++ (a11 ++ (')' :: (a12 ++ ("local.get".data ++ (a13 ++ ('$' :: ("p0".data ++ (a14 ++ (')' :: (t))))))))))))))))))))))))))).length := by
      simp [List.length_append, len_param, len_result, len_i32, len_p0]
      omega
    exact pmany0F_step (by omega) e4 hlt (pmany0F_stop (by omega) e5)
  have hR2 : sp (a12 ++ ("local.get".data ++ (a13 ++ ('$' :: ("p0".data ++ (a14 ++ (')' :: (t)))))))) = "local.get".data ++ (a13 ++ ('$' :: ("p0".data ++ (a14 ++ (')' :: (t)))))) := by
    rw [sp_wsc w12]
    exact sp_stop_plain (by decide) (by decide) (by decide)
  have hBody : sp ("local.get".data ++ (a13 ++ ('$' :: ("p0".data ++ (a14 ++ (')' :: (t))))))) = "local.get".data ++ (a13 ++ ('$' :: ("p0".data ++ (a14 ++ (')' :: (t)))))) :=
    sp_stop_plain (by decide) (by decide) (by decide)
  have e7 : pwsOpt presult ('(' :: (a9 ++ ("result".data ++ (a10 ++ ("i32".data ++ (a11 ++ (')' :: (a12 ++ ("local.get".data ++ (a13 ++ ('$' :: ("p0".data ++ (a14 ++ (')' :: (t))))))))))))))) = .ok ("local.get".data ++ (a13 ++ ('$' :: ("p0".data ++ (a14 ++ (')' :: (t))))))) (some ValType.i32) := by
    have hp := presult_family (t := a12 ++ ("local.get".data ++ (a13 ++ ('$' :: ("p0".data ++ (a14 ++ (')' :: (t)))))))) w9 w10 w11 p9
    rw [hR2] at hp
    exact pwsOpt_of hRes hp hBody
  have hY2 : sp ('$' :: ("p0".data ++ (a14 ++ (')' :: (t))))) = '$' :: ("p0".data ++ (a14 ++ (')' :: (t)))) :=
    sp_stop_plain (by decide) (by decide) (by decide)
  have e8 : pws (fun u => pexprF m u) ("local.get".data ++ (a13 ++ ('$' :: ("p0".data ++ (a14 ++ (')' :: (t))))))) = .ok ('$' :: ("p0".data ++ (a14 ++ (')' :: (t))))) (.instr .localGet) := by
    have hf : pfuncWith (fun u => pexprF (m - 1) u) ("local.get".data ++ (a13 ++ ('$' :: ("p0".data ++ (a14 ++ (')' :: (t))))))) = .err :=
      psexpr_err (pws_pchar_err_head hBody (by decide))
    have hex : pexportP ("local.get".data ++ (a13 ++ ('$' :: ("p0".data ++ (a14 ++ (')' :: (t))))))) = .err :=
      psexpr_err (pws_pchar_err_head hBody (by decide))
    have hi : pinstrTok ("local.get".data ++ (a13 ++ ('$' :: ("p0".data ++ (a14 ++ (')' :: (t))))))) = .ok (a13 ++ ('$' :: ("p0".data ++ (a14 ++ (')' :: (t)))))) Instr.localGet :=
      pinstr_localget (headNot_alnum_wsc w13 (headNot_alnum_cons (by decide) _))
    have hY1 : sp (a13 ++ ('$' :: ("p0".data ++ (a14 ++ (')' :: (t)))))) = '$' :: ("p0".data ++ (a14 ++ (')' :: (t)))) := by
      rw [sp_wsc w13]
      exact sp_stop_plain (by decide) (by decide) (by decide)
    exact pws_of2 hBody (pexprF_of_instr hm hf hex hi) hY1
  have e9 : pws (fun u => pexprF m u) ('$' :: ("p0".data ++ (a14 ++ (')' :: (t))))) = .ok (')' :: t) (.ident "p0".data) := by
    have hf : pfuncWith (fun u => pexprF (m - 1) u) ('$' :: ("p0".data ++ (a14 ++ (')' :: (t))))) = .err :=
      psexpr_err (pws_pchar_err_head hY2 (by decide))
    have hex : pexportP ('$' :: ("p0".data ++ (a14 ++ (')' :: (t))))) = .err :=
      psexpr_err (pws_pchar_err_head hY2 (by decide))
    have hi : pinstrTok ('$' :: ("p0".data ++ (a14 ++ (')' :: (t))))) = .err := rfl
    have hid : pidentifier ('$' :: ("p0".data ++ (a14 ++ (')' :: (t))))) = .ok (a14 ++ (')' :: (t))) "p0".data :=
      pidentifier_self (by decide) (headNot_id_wsc w14 (headNot_id_cons (by decide) _))
    have hZ : sp (a14 ++ (')' :: (t))) = ')' :: t := by
      rw [sp_wsc w14]
      exact sp_stop_plain (by decide) (by decide) (by decide)
    exact pws_of2 hY2 (pexprF_of_ident hm hf hex hi hid) hZ
  have e10 : pws (fun u => pexprF m u) (')' :: t) = .err :=
    pws_err_of2 (sp_stop_plain (by decide) (by decide) (by decide))
      (pexprF_err_rparen m t)
  have e11 : pmany0F (("local.get".data ++ (a13 ++ ('$' :: ("p0".data ++ (a14 ++ (')' :: (t))))))).length + 1) (pws (fun u => pexprF m u)) ("local.get".data ++ (a13 ++ ('$' :: ("p0".data ++ (a14 ++ (')' :: (t))))))) =
      .ok (')' :: t) [Expr.instr .localGet, Expr.ident "p0".data] := by
    have hlt1 : ('$' :: ("p0".data ++ (a14 ++ (')' :: (t))))).length < ("local.get".data ++ (a13 ++ ('$' :: ("p0".data ++ (a14 ++ (')' :: (t))))))).length := by
      simp [List.length_append, len_localget, len_p0]
      omega
    have hlt2 : (')' :: t).length < ('$' :: ("p0".data ++ (a14 ++ (')' :: (t))))).length := by
      simp [List.length_append, len_p0]
      omega
    exact pmany0F_step (by omega) e8 hlt1
      (pmany0F_step (by omega) e9 hlt2
        (pmany0F_stop (by omega) e10))
  simp only [pfuncWith, psexpr, e1, e2, e3, e6, e7, e11, pws_rparen]

theorem pmodule_family
    {c0 c1 c2 c3 c4 c5 c6 c7 c8 c9 c10 c11 c12 c13 c14 c15 c16 c17 c18 c19
     c20 c21 c22 c23 c24 c25 c26 : List Char}
    (w0 : Wsc c0) (w1 : Wsc c1) (w2 : Wsc c2) (w3 : Wsc c3) (w4 : Wsc c4)
    (w5 : Wsc c5) (w6 : Wsc c6) (w7 : Wsc c7) (w8 : Wsc c8) (w9 : Wsc c9)
    (w10 : Wsc c10) (w11 : Wsc c11) (w12 : Wsc c12) (w13 : Wsc c13)
    (w14 : Wsc c14) (w15 : Wsc c15) (w16 : Wsc c16) (w17 : Wsc c17)
    (w18 : Wsc c18) (w19 : Wsc c19) (w20 : Wsc c20) (w21 : Wsc c21)
    (w22 : Wsc c22) (w23 : Wsc c23) (w24 : Wsc c24) (w25 : Wsc c25)
    (w26 : Wsc c26)
    (p1 : c1.head? ≠ some ';') (p3 : c3.head? ≠ some ';')
    (p6 : c6.head? ≠ some ';') (p11 : c11.head? ≠ some ';')
    (p18 : c18.head? ≠ some ';') (p21 : c21.head? ≠ some ';')
    (ne8 : c8 ≠ []) (ne22 : c22 ≠ []) :
    parseModule (c0 ++ ('(' :: (c1 ++ ("module".data ++ (c2 ++ ('(' :: (c3 ++ ("func".data ++ (c4 ++ ('$' :: ("add".data ++ (c5 ++ ('(' :: (c6 ++ ("param".data ++ (c7 ++ ('$' :: ("p0".data ++ (c8 ++ ("i32".data ++ (c9 ++ (')' :: (c10 ++ ('(' :: (c11 ++ ("result".data ++ (c12 ++ ("i32".data ++ (c13 ++ (')' :: (c14 ++ ("local.get".data ++ (c15 ++ ('$' :: ("p0".data ++ (c16 ++ (')' :: (c17 ++ ('(' :: (c18 ++ ("export".data ++ (c19 ++ ('"' :: ("add".data ++ ('"' :: (c20 ++ ('(' :: (c21 ++ ("func".data ++ (c22 ++ ('$' :: ("add".data ++ (c23 ++ (')' :: (c24 ++ (')' :: (c25 ++ (')' :: (c26))))))))))))))))))))))))))))))))))))))))))))))))))))))))))) =
    .ok [] (WatModule.mk [(Func.mk "add".data [("p0".data, ValType.i32)] (some ValType.i32) [Expr.instr .localGet, Expr.ident "p0".data])] [(Export.mk "add".data "add".data .func)]) := by
  have hMX : sp ("module".data ++ (c2 ++ ('(' :: (c3 ++ ("func".data ++ (c4 ++ ('$' :: ("add".data ++ (c5 ++ ('(' :: (c6 ++ ("param".data ++ (c7 ++ ('$' :: ("p0".data ++ (c8 ++ ("i32".data ++ (c9 ++ (')' :: (c10 ++ ('(' :: (c11 ++ ("result".data ++ (c12 ++ ("i32".data ++ (c13 ++ (')' :: (c14 ++ ("local.get".data ++ (c15 ++ ('$' :: ("p0".data ++ (c16 ++ (')' :: (c17 ++ ('(' :: (c18 ++ ("export".data ++ (c19 ++ ('"' :: ("add".data ++ ('"' :: (c20 ++ ('(' :: (c21 ++ ("func".data ++ (c22 ++ ('$' :: ("add".data ++ (c23 ++ (')' :: (c24 ++ (')' :: (c25 ++ (')' :: (c26)))))))))))))))))))))))))))))))))))))))))))))))))))))))) = "module".data ++ (c2 ++ ('(' :: (c3 ++ ("func".data ++ (c4 ++ ('$' :: ("add".data ++ (c5 ++ ('(' :: (c6 ++ ("param".data ++ (c7 ++ ('$' :: ("p0".data ++ (c8 ++ ("i32".data ++ (c9 ++ (')' :: (c10 ++ ('(' :: (c11 ++ ("result".data ++ (c12 ++ ("i32".data ++ (c13 ++ (')' :: (c14 ++ ("local.get".data ++ (c15 ++ ('$' :: ("p0".data ++ (c16 ++ (')' :: (c17 ++ ('(' :: (c18 ++ ("export".data ++ (c19 ++ ('"' :: ("add".data ++ ('"' :: (c20 ++ ('(' :: (c21 ++ ("func".data ++ (c22 ++ ('$' :: ("add".data ++ (c23 ++ (')' :: (c24 ++ (')' :: (c25 ++ (')' :: (c26))))))))))))))))))))))))))))))))))))))))))))))))))))))) :=
    sp_stop_plain (by decide) (by decide) (by decide)
  have hKids : sp ('(' :: (c3 ++ ("func".data ++ (c4 ++ ('$' :: ("add".data ++ (c5 ++ ('(' :: (c6 ++ ("param".data ++ (c7 ++ ('$' :: ("p0".data ++ (c8 ++ ("i32".data ++ (c9 ++ (')' :: (c10 ++ ('(' :: (c11 ++ ("result".data ++ (c12 ++ ("i32".data ++ (c13 ++ (')' :: (c14 ++ ("local.get".data ++ (c15 ++ ('$' :: ("p0".data ++ (c16 ++ (')' :: (c17 ++ ('(' :: (c18 ++ ("export".data ++ (c19 ++ ('"' :: ("add".data ++ ('"' :: (c20 ++ ('(' :: (c21 ++ ("func".data ++ (c22 ++ ('$' :: ("add".data ++ (c23 ++ (')' :: (c24 ++ (')' :: (c25 ++ (')' :: (c26)))))))))))))))))))))))))))))))))))))))))))))))))))))) = '(' :: (c3 ++ ("func".data ++ (c4 ++ ('$' :: ("add".data ++ (c5 ++ ('(' :: (c6 ++ ("param".data ++ (c7 ++ ('$' :: ("p0".data ++ (c8 ++ ("i32".data ++ (c9 ++ (')' :: (c10 ++ ('(' :: (c11 ++ ("result".data ++ (c12 ++ ("i32".data ++ (c13 ++ (')' :: (c14 ++ ("local.get".data ++ (c15 ++ ('$' :: ("p0".data ++ (c16 ++ (')' :: (c17 ++ ('(' :: (c18 ++ ("export".data ++ (c19 ++ ('"' :: ("add".data ++ ('"' :: (c20 ++ ('(' :: (c21 ++ ("func".data ++ (c22 ++ ('$' :: ("add".data ++ (c23 ++ (')' :: (c24 ++ (')' :: (c25 ++ (')' :: (c26))))))))))))))))))))))))))))))))))))))))))))))))))))) :=
    sp_stop_lparen (head_append_ne p3 (head_cons_ne (show 'f' ≠ ';' by decide) _))
  have hEXPS : sp ('(' :: (c18 ++ ("export".data ++ (c19 ++ ('"' :: ("add".data ++ ('"' :: (c20 ++ ('(' :: (c21 ++ ("func".data ++ (c22 ++ ('$' :: ("add".data ++ (c23 ++ (')' :: (c24 ++ (')' :: (c25 ++ (')' :: (c26))))))))))))))))))))) = '(' :: (c18 ++ ("export".data ++ (c19 ++ ('"' :: ("add".data ++ ('"' :: (c20 ++ ('(' :: (c21 ++ ("func".data ++ (c22 ++ ('$' :: ("add".data ++ (c23 ++ (')' :: (c24 ++ (')' :: (c25 ++ (')' :: (c26)))))))))))))))))))) :=
    sp_stop_lparen (head_append_ne p18 (head_cons_ne (show 'e' ≠ ';' by decide) _))
  have hTF : sp (c17 ++ ('(' :: (c18 ++ ("export".data ++ (c19 ++ ('"' :: ("add".data ++ ('"' :: (c20 ++ ('(' :: (c21 ++ ("func".data ++ (c22 ++ ('$' :: ("add".data ++ (c23 ++ (')' :: (c24 ++ (')' :: (c25 ++ (')' :: (c26)))))))))))))))))))))) = '(' :: (c18 ++ ("export".data ++ (c19 ++ ('"' :: ("add".data ++ ('"' :: (c20 ++ ('(' :: (c21 ++ ("func".data ++ (c22 ++ ('$' :: ("add".data ++ (c23 ++ (')' :: (c24 ++ (')' :: (c25 ++ (')' :: (c26)))))))))))))))))))) := by
    rw [sp_wsc w17]
    exact hEXPS
  have hTE : sp (c25 ++ (')' :: (c26))) = ')' :: c26 := by
    rw [sp_wsc w25]
    exact sp_stop_plain (by decide) (by decide) (by decide)
  have hRC : sp (')' :: c26) = ')' :: c26 :=
    sp_stop_plain (by decide) (by decide) (by decide)
  have E1 : pws (pchar '(') (c0 ++ ('(' :: (c1 ++ ("module".data ++ (c2 ++ ('(' :: (c3 ++ ("func".data ++ (c4 ++ ('$' :: ("add".data ++ (c5 ++ ('(' :: (c6 ++ ("param".data ++ (c7 ++ ('$' :: ("p0".data ++ (c8 ++ ("i32".data ++ (c9 ++ (')' :: (c10 ++ ('(' :: (c11 ++ ("result".data ++ (c12 ++ ("i32".data ++ (c13 ++ (')' :: (c14 ++ ("local.get".data ++ (c15 ++ ('$' :: ("p0".data ++ (c16 ++ (')' :: (c17 ++ ('(' :: (c18 ++ ("export".data ++ (c19 ++ ('"' :: ("add".data ++ ('"' :: (c20 ++ ('(' :: (c21 ++ ("func".data ++ (c22 ++ ('$' :: ("add".data ++ (c23 ++ (')' :: (c24 ++ (')' :: (c25 ++ (')' :: (c26))))))))))))))))))))))))))))))))))))))))))))))))))))))))))) = .ok ("module".data ++ (c2 ++ ('(' :: (c3 ++ ("func".data ++ (c4 ++ ('$' :: ("add".data ++ (c5 ++ ('(' :: (c6 ++ ("param".data ++ (c7 ++ ('$' :: ("p0".data ++ (c8 ++ ("i32".data ++ (c9 ++ (')' :: (c10 ++ ('(' :: (c11 ++ ("result".data ++ (c12 ++ ("i32".data ++ (c13 ++ (')' :: (c14 ++ ("local.get".data ++ (c15 ++ ('$' :: ("p0".data ++ (c16 ++ (')' :: (c17 ++ ('(' :: (c18 ++ ("export".data ++ (c19 ++ ('"' :: ("add".data ++ ('"' :: (c20 ++ ('(' :: (c21 ++ ("func".data ++ (c22 ++ ('$' :: ("add".data ++ (c23 ++ (')' :: (c24 ++ (')' :: (c25 ++ (')' :: (c26)))))))))))))))))))))))))))))))))))))))))))))))))))))))) () := by
    simpa using pws_lparen (a := c0) (b := c1) (x := "module".data ++ (c2 ++ ('(' :: (c3 ++ ("func".data ++ (c4 ++ ('$' :: ("add".data ++ (c5 ++ ('(' :: (c6 ++ ("param".data ++ (c7 ++ ('$' :: ("p0".data ++ (c8 ++ ("i32".data ++ (c9 ++ (')' :: (c10 ++ ('(' :: (c11 ++ ("result".data ++ (c12 ++ ("i32".data ++ (c13 ++ (')' :: (c14 ++ ("local.get".data ++ (c15 ++ ('$' :: ("p0".data ++ (c16 ++ (')' :: (c17 ++ ('(' :: (c18 ++ ("export".data ++ (c19 ++ ('"' :: ("add".data ++ ('"' :: (c20 ++ ('(' :: (c21 ++ ("func".data ++ (c22 ++ ('$' :: ("add".data ++ (c23 ++ (')' :: (c24 ++ (')' :: (c25 ++ (')' :: (c26))))))))))))))))))))))))))))))))))))))))))))))))))))))))
      w0 w1
      (head_append_ne p1 (head_cons_ne (show 'm' ≠ ';' by decide) _))
      hMX
  have E2 : pws (ptag "module".data) ("module".data ++ (c2 ++ ('(' :: (c3 ++ ("func".data ++ (c4 ++ ('$' :: ("add".data ++ (c5 ++ ('(' :: (c6 ++ ("param".data ++ (c7 ++ ('$' :: ("p0".data ++ (c8 ++ ("i32".data ++ (c9 ++ (')' :: (c10 ++ ('(' :: (c11 ++ ("result".data ++ (c12 ++ ("i32".data ++ (c13 ++ (')' :: (c14 ++ ("local.get".data ++ (c15 ++ ('$' :: ("p0".data ++ (c16 ++ (')' :: (c17 ++ ('(' :: (c18 ++ ("export".data ++ (c19 ++ ('"' :: ("add".data ++ ('"' :: (c20 ++ ('(' :: (c21 ++ ("func".data ++ (c22 ++ ('$' :: ("add".data ++ (c23 ++ (')' :: (c24 ++ (')' :: (c25 ++ (')' :: (c26)))))))))))))))))))))))))))))))))))))))))))))))))))))))) = .ok ('(' :: (c3 ++ ("func".data ++ (c4 ++ ('$' :: ("add".data ++ (c5 ++ ('(' :: (c6 ++ ("param".data ++ (c7 ++ ('$' :: ("p0".data ++ (c8 ++ ("i32".data ++ (c9 ++ (')' :: (c10 ++ ('(' :: (c11 ++ ("result".data ++ (c12 ++ ("i32".data ++ (c13 ++ (')' :: (c14 ++ ("local.get".data ++ (c15 ++ ('$' :: ("p0".data ++ (c16 ++ (')' :: (c17 ++ ('(' :: (c18 ++ ("export".data ++ (c19 ++ ('"' :: ("add".data ++ ('"' :: (c20 ++ ('(' :: (c21 ++ ("func".data ++ (c22 ++ ('$' :: ("add".data ++ (c23 ++ (')' :: (c24 ++ (')' :: (c25 ++ (')' :: (c26)))))))))))))))))))))))))))))))))))))))))))))))))))))) () := by
    simpa using pws_token (a := []) (b := c2) (g := "module".data)
      (x := '(' :: (c3 ++ ("func".data ++ (c4 ++ ('$' :: ("add".data ++ (c5 ++ ('(' :: (c6 ++ ("param".data ++ (c7 ++ ('$' :: ("p0".data ++ (c8 ++ ("i32".data ++ (c9 ++ (')' :: (c10 ++ ('(' :: (c11 ++ ("result".data ++ (c12 ++ ("i32".data ++ (c13 ++ (')' :: (c14 ++ ("local.get".data ++ (c15 ++ ('$' :: ("p0".data ++ (c16 ++ (')' :: (c17 ++ ('(' :: (c18 ++ ("export".data ++ (c19 ++ ('"' :: ("add".data ++ ('"' :: (c20 ++ ('(' :: (c21 ++ ("func".data ++ (c22 ++ ('$' :: ("add".data ++ (c23 ++ (')' :: (c24 ++ (')' :: (c25 ++ (')' :: (c26))))))))))))))))))))))))))))))))))))))))))))))))))))))
      Wsc.nil w2
      (sp_stop_plain (by decide) (by decide) (by decide))
      (ptag_self "module".data _)
      hKids
  have hlenT : 0 < (c0 ++ ('(' :: (c1 ++ ("module".data ++ (c2 ++ ('(' :: (c3 ++ ("func".data ++ (c4 ++ ('$' :: ("add".data ++ (c5 ++ ('(' :: (c6 ++ ("param".data ++ (c7 ++ ('$' :: ("p0".data ++ (c8 ++ ("i32".data ++ (c9 ++ (')' :: (c10 ++ ('(' :: (c11 ++ ("result".data ++ (c12 ++ ("i32".data ++ (c13 ++ (')' :: (c14 ++ ("local.get".data ++ (c15 ++ ('$' :: ("p0".data ++ (c16 ++ (')' :: (c17 ++ ('(' :: (c18 ++ ("export".data ++ (c19 ++ ('"' :: ("add".data ++ ('"' :: (c20 ++ ('(' :: (c21 ++ ("func".data ++ (c22 ++ ('$' :: ("add".data ++ (c23 ++ (')' :: (c24 ++ (')' :: (c25 ++ (')' :: (c26))))))))))))))))))))))))))))))))))))))))))))))))))))))))))).length := by
    simp [List.length_append, List.length_cons, len_module, len_func, len_param, len_result, len_export, len_localget, len_i32, len_p0, len_add]
  have E3 : pws (pexprF ((c0 ++ ('(' :: (c1 ++ ("module".data ++ (c2 ++ ('(' :: (c3 ++ ("func".data ++ (c4 ++ ('$' :: ("add".data ++ (c5 ++ ('(' :: (c6 ++ ("param".data ++ (c7 ++ ('$' :: ("p0".data ++ (c8 ++ ("i32".data ++ (c9 ++ (')' :: (c10 ++ ('(' :: (c11 ++ ("result".data ++ (c12 ++ ("i32".data ++ (c13 ++ (')' :: (c14 ++ ("local.get".data ++ (c15 ++ ('$' :: ("p0".data ++ (c16 ++ (')' :: (c17 ++ ('(' :: (c18 ++ ("export".data ++ (c19 ++ ('"' :: ("add".data ++ ('"' :: (c20 ++ ('(' :: (c21 ++ ("func".data ++ (c22 ++ ('$' :: ("add".data ++ (c23 ++ (')' :: (c24 ++ (')' :: (c25 ++ (')' :: (c26))))))))))))))))))))))))))))))))))))))))))))))))))))))))))).length + 1)) ('(' :: (c3 ++ ("func".data ++ (c4 ++ ('$' :: ("add".data ++ (c5 ++ ('(' :: (c6 ++ ("param".data ++ (c7 ++ ('$' :: ("p0".data ++ (c8 ++ ("i32".data ++ (c9 ++ (')' :: (c10 ++ ('(' :: (c11 ++ ("result".data ++ (c12 ++ ("i32".data ++ (c13 ++ (')' :: (c14 ++ ("local.get".data ++ (c15 ++ ('$' :: ("p0".data ++ (c16 ++ (')' :: (c17 ++ ('(' :: (c18 ++ ("export".data ++ (c19 ++ ('"' :: ("add".data ++ ('"' :: (c20 ++ ('(' :: (c21 ++ ("func".data ++ (c22 ++ ('$' :: ("add".data ++ (c23 ++ (')' :: (c24 ++ (')' :: (c25 ++ (')' :: (c26)))))))))))))))))))))))))))))))))))))))))))))))))))))) =
      .ok ('(' :: (c18 ++ ("export".data ++ (c19 ++ ('"' :: ("add".data ++ ('"' :: (c20 ++ ('(' :: (c21 ++ ("func".data ++ (c22 ++ ('$' :: ("add".data ++ (c23 ++ (')' :: (c24 ++ (')' :: (c25 ++ (')' :: (c26))))))))))))))))))))) (.efunc (Func.mk "add".data [("p0".data, ValType.i32)] (some ValType.i32) [Expr.instr .localGet, Expr.ident "p0".data])) := by
    have hfam := pfunc_family (m := (c0 ++ ('(' :: (c1 ++ ("module".data ++ (c2 ++ ('(' :: (c3 ++ ("func".data ++ (c4 ++ ('$' :: ("add".data ++ (c5 ++ ('(' :: (c6 ++ ("param".data ++ (c7 ++ ('$' :: ("p0".data ++ (c8 ++ ("i32".data ++ (c9 ++ (')' :: (c10 ++ ('(' :: (c11 ++ ("result".data ++ (c12 ++ ("i32".data ++ (c13 ++ (')' :: (c14 ++ ("local.get".data ++ (c15 ++ ('$' :: ("p0".data ++ (c16 ++ (')' :: (c17 ++ ('(' :: (c18 ++ ("export".data ++ (c19 ++ ('"' :: ("add".data ++ ('"' :: (c20 ++ ('(' :: (c21 ++ ("func".data ++ (c22 ++ ('$' :: ("add".data ++ (c23 ++ (')' :: (c24 ++ (')' :: (c25 ++ (')' :: (c26))))))))))))))))))))))))))))))))))))))))))))))))))))))))))).length + 1 - 1) (t := c17 ++ ('(' :: (c18 ++ ("export".data ++ (c19 ++ ('"' :: ("add".data ++ ('"' :: (c20 ++ ('(' :: (c21 ++ ("func".data ++ (c22 ++ ('$' :: ("add".data ++ (c23 ++ (')' :: (c24 ++ (')' :: (c25 ++ (')' :: (c26))))))))))))))))))))))
      (by omega) w3 w4 w5 w6 w7 w8 w9 w10 w11 w12 w13 w14 w15 w16
      p3 p6 p11 ne8
    rw [hTF] at hfam
    exact pws_of2 hKids (pexprF_of_func (by omega) hfam) hEXPS
  have E4 : pws (pexprF ((c0 ++ ('(' :: (c1 ++ ("module".data ++ (c2 ++ ('(' :: (c3 ++ ("func".data ++ (c4 ++ ('$' :: ("add".data ++ (c5 ++ ('(' :: (c6 ++ ("param".data ++ (c7 ++ ('$' :: ("p0".data ++ (c8 ++ ("i32".data ++ (c9 ++ (')' :: (c10 ++ ('(' :: (c11 ++ ("result".data ++ (c12 ++ ("i32".data ++ (c13 ++ (')' :: (c14 ++ ("local.get".data ++ (c15 ++ ('$' :: ("p0".data ++ (c16 ++ (')' :: (c17 ++ ('(' :: (c18 ++ ("export".data ++ (c19 ++ ('"' :: ("add".data ++ ('"' :: (c20 ++ ('(' :: (c21 ++ ("func".data ++ (c22 ++ ('$' :: ("add".data ++ (c23 ++ (')' :: (c24 ++ (')' :: (c25 ++ (')' :: (c26))))))))))))))))))))))))))))))))))))))))))))))))))))))))))).length + 1)) ('(' :: (c18 ++ ("export".data ++ (c19 ++ ('"' :: ("add".data ++ ('"' :: (c20 ++ ('(' :: (c21 ++ ("func".data ++ (c22 ++ ('$' :: ("add".data ++ (c23 ++ (')' :: (c24 ++ (')' :: (c25 ++ (')' :: (c26))))))))))))))))))))) =
      .ok (')' :: c26) (.eexp (Export.mk "add".data "add".data .func)) := by
    have f1 : pws (pchar '(') ('(' :: (c18 ++ ("export".data ++ (c19 ++ ('"' :: ("add".data ++ ('"' :: (c20 ++ ('(' :: (c21 ++ ("func".data ++ (c22 ++ ('$' :: ("add".data ++ (c23 ++ (')' :: (c24 ++ (')' :: (c25 ++ (')' :: (c26))))))))))))))))))))) = .ok ("export".data ++ (c19 ++ ('"' :: ("add".data ++ ('"' :: (c20 ++ ('(' :: (c21 ++ ("func".data ++ (c22 ++ ('$' :: ("add".data ++ (c23 ++ (')' :: (c24 ++ (')' :: (c25 ++ (')' :: (c26))))))))))))))))))) () := by
      simpa using pws_lparen (a := []) (b := c18) (x := "export".data ++ (c19 ++ ('"' :: ("add".data ++ ('"' :: (c20 ++ ('(' :: (c21 ++ ("func".data ++ (c22 ++ ('$' :: ("add".data ++ (c23 ++ (')' :: (c24 ++ (')' :: (c25 ++ (')' :: (c26)))))))))))))))))))
        Wsc.nil w18
        (head_append_ne p18 (head_cons_ne (show 'e' ≠ ';' by decide) _))
        (sp_stop_plain (by decide) (by decide) (by decide))
    have f2 : pws (ptag "func".data) ("export".data ++ (c19 ++ ('"' :: ("add".data ++ ('"' :: (c20 ++ ('(' :: (c21 ++ ("func".data ++ (c22 ++ ('$' :: ("add".data ++ (c23 ++ (')' :: (c24 ++ (')' :: (c25 ++ (')' :: (c26))))))))))))))))))) = .err :=
      pws_err_of2 (sp_stop_plain (by decide) (by decide) (by decide)) rfl
    have hf : pfuncWith (fun u => pexprF ((c0 ++ ('(' :: (c1 ++ ("module".data ++ (c2 ++ ('(' :: (c3 ++ ("func".data ++ (c4 ++ ('$' :: ("add".data ++ (c5 ++ ('(' :: (c6 ++ ("param".data ++ (c7 ++ ('$' :: ("p0".data ++ (c8 ++ ("i32".data ++ (c9 ++ (')' :: (c10 ++ ('(' :: (c11 ++ ("result".data ++ (c12 ++ ("i32".data ++ (c13 ++ (')' :: (c14 ++ ("local.get".data ++ (c15 ++ ('$' :: ("p0".data ++ (c16 ++ (')' :: (c17 ++ ('(' :: (c18 ++ ("export".data ++ (c19 ++ ('"' :: ("add".data ++ ('"' :: (c20 ++ ('(' :: (c21 ++ ("func".data ++ (c22 ++ ('$' :: ("add".data ++ (c23 ++ (')' :: (c24 ++ (')' :: (c25 ++ (')' :: (c26))))))))))))))))))))))))))))))))))))))))))))))))))))))))))).length + 1 - 1) u) ('(' :: (c18 ++ ("export".data ++ (c19 ++ ('"' :: ("add".data ++ ('"' :: (c20 ++ ('(' :: (c21 ++ ("func".data ++ (c22 ++ ('$' :: ("add".data ++ (c23 ++ (')' :: (c24 ++ (')' :: (c25 ++ (')' :: (c26))))))))))))))))))))) = .err := by
      simp only [pfuncWith, psexpr, f1, f2]
    have he := pexport_family (t := c25 ++ (')' :: (c26)))
      w18 w19 w20 w21 w22 w23 w24 p18 p21 ne22
    rw [hTE] at he
    exact pws_of2 hEXPS (pexprF_of_exp (by omega) hf he) hRC
  have E5 : pws (pexprF ((c0 ++ ('(' :: (c1 ++ ("module".data ++ (c2 ++ ('(' :: (c3 ++ ("func".data ++ (c4 ++ ('$' :: ("add".data ++ (c5 ++ ('(' :: (c6 ++ ("param".data ++ (c7 ++ ('$' :: ("p0".data ++ (c8 ++ ("i32".data ++ (c9 ++ (')' :: (c10 ++ ('(' :: (c11 ++ ("result".data ++ (c12 ++ ("i32".data ++ (c13 ++ (')' :: (c14 ++ ("local.get".data ++ (c15 ++ ('$' :: ("p0".data ++ (c16 ++ (')' :: (c17 ++ ('(' :: (c18 ++ ("export".data ++ (c19 ++ ('"' :: ("add".data ++ ('"' :: (c20 ++ ('(' :: (c21 ++ ("func".data ++ (c22 ++ ('$' :: ("add".data ++ (c23 ++ (')' :: (c24 ++ (')' :: (c25 ++ (')' :: (c26))))))))))))))))))))))))))))))))))))))))))))))))))))))))))).length + 1)) (')' :: c26) = .err :=
    pws_err_of2 hRC (pexprF_err_rparen _ c26)
  have hltKE : ('(' :: (c18 ++ ("export".data ++ (c19 ++ ('"' :: ("add".data ++ ('"' :: (c20 ++ ('(' :: (c21 ++ ("func".data ++ (c22 ++ ('$' :: ("add".data ++ (c23 ++ (')' :: (c24 ++ (')' :: (c25 ++ (')' :: (c26))))))))))))))))))))).length < ('(' :: (c3 ++ ("func".data ++ (c4 ++ ('$' :: ("add".data ++ (c5 ++ ('(' :: (c6 ++ ("param".data ++ (c7 ++ ('$' :: ("p0".data ++ (c8 ++ ("i32".data ++ (c9 ++ (')' :: (c10 ++ ('(' :: (c11 ++ ("result".data ++ (c12 ++ ("i32".data ++ (c13 ++ (')' :: (c14 ++ ("local.get".data ++ (c15 ++ ('$' :: ("p0".data ++ (c16 ++ (')' :: (c17 ++ ('(' :: (c18 ++ ("export".data ++ (c19 ++ ('"' :: ("add".data ++ ('"' :: (c20 ++ ('(' :: (c21 ++ ("func".data ++ (c22 ++ ('$' :: ("add".data ++ (c23 ++ (')' :: (c24 ++ (')' :: (c25 ++ (')' :: (c26)))))))))))))))))))))))))))))))))))))))))))))))))))))).length := by
    simp [List.length_append, List.length_cons, len_module, len_func, len_param, len_result, len_export, len_localget, len_i32, len_p0, len_add]
    omega
  have hltER : (')' :: c26).length < ('(' :: (c18 ++ ("export".data ++ (c19 ++ ('"' :: ("add".data ++ ('"' :: (c20 ++ ('(' :: (c21 ++ ("func".data ++ (c22 ++ ('$' :: ("add".data ++ (c23 ++ (')' :: (c24 ++ (')' :: (c25 ++ (')' :: (c26))))))))))))))))))))).length := by
    simp [List.length_append, List.length_cons, len_module, len_func, len_param, len_result, len_export, len_localget, len_i32, len_p0, len_add]
    omega
  have E6 : pkidsF (('(' :: (c3 ++ ("func".data ++ (c4 ++ ('$' :: ("add".data ++ (c5 ++ ('(' :: (c6 ++ ("param".data ++ (c7 ++ ('$' :: ("p0".data ++ (c8 ++ ("i32".data ++ (c9 ++ (')' :: (c10 ++ ('(' :: (c11 ++ ("result".data ++ (c12 ++ ("i32".data ++ (c13 ++ (')' :: (c14 ++ ("local.get".data ++ (c15 ++ ('$' :: ("p0".data ++ (c16 ++ (')' :: (c17 ++ ('(' :: (c18 ++ ("export".data ++ (c19 ++ ('"' :: ("add".data ++ ('"' :: (c20 ++ ('(' :: (c21 ++ ("func".data ++ (c22 ++ ('$' :: ("add".data ++ (c23 ++ (')' :: (c24 ++ (')' :: (c25 ++ (')' :: (c26)))))))))))))))))))))))))))))))))))))))))))))))))))))).length + 1) ((c0 ++ ('(' :: (c1 ++ ("module".data ++ (c2 ++ ('(' :: (c3 ++ ("func".data ++ (c4 ++ ('$' :: ("add".data ++ (c5 ++ ('(' :: (c6 ++ ("param".data ++ (c7 ++ ('$' :: ("p0".data ++ (c8 ++ ("i32".data ++ (c9 ++ (')' :: (c10 ++ ('(' :: (c11 ++ ("result".data ++ (c12 ++ ("i32".data ++ (c13 ++ (')' :: (c14 ++ ("local.get".data ++ (c15 ++ ('$' :: ("p0".data ++ (c16 ++ (')' :: (c17 ++ ('(' :: (c18 ++ ("export".data ++ (c19 ++ ('"' :: ("add".data ++ ('"' :: (c20 ++ ('(' :: (c21 ++ ("func".data ++ (c22 ++ ('$' :: ("add".data ++ (c23 ++ (')' :: (c24 ++ (')' :: (c25 ++ (')' :: (c26))))))))))))))))))))))))))))))))))))))))))))))))))))))))))).length + 1) ('(' :: (c3 ++ ("func".data ++ (c4 ++ ('$' :: ("add".data ++ (c5 ++ ('(' :: (c6 ++ ("param".data ++ (c7 ++ ('$' :: ("p0".data ++ (c8 ++ ("i32".data ++ (c9 ++ (')' :: (c10 ++ ('(' :: (c11 ++ ("result".data ++ (c12 ++ ("i32".data ++ (c13 ++ (')' :: (c14 ++ ("local.get".data ++ (c15 ++ ('$' :: ("p0".data ++ (c16 ++ (')' :: (c17 ++ ('(' :: (c18 ++ ("export".data ++ (c19 ++ ('"' :: ("add".data ++ ('"' :: (c20 ++ ('(' :: (c21 ++ ("func".data ++ (c22 ++ ('$' :: ("add".data ++ (c23 ++ (')' :: (c24 ++ (')' :: (c25 ++ (')' :: (c26)))))))))))))))))))))))))))))))))))))))))))))))))))))) =
      .ok (')' :: c26) ([(Func.mk "add".data [("p0".data, ValType.i32)] (some ValType.i32) [Expr.instr .localGet, Expr.ident "p0".data])], [(Export.mk "add".data "add".data .func)]) := by
    refine pkidsF_step_func (by omega) E3 hltKE ?_
    refine pkidsF_step_exp (by omega) E4 hltER ?_
    exact pkidsF_stop (by omega) E5
  have E7 : pws (pchar ')') (')' :: c26) = .ok [] () := by
    have h := pws_rparen c26
    rw [sp_wsc_nil w26] at h
    exact h
  simp only [parseModule, pmoduleF, psexpr, E1, E2, E6, E7]

/-- Claim C8 counterexample: the insertion invariance fails.  The module
text (module) parses; inserting the line comment double-semicolon-space-x-
semicolon-close-paren-newline (a well-formed line comment, as the WsChunk
fact shows) at the token boundary between the opening parenthesis and the
module keyword yields a text the parser rejects: the skipper reads the
open-paren-semicolon pair as a block-comment opener and swallows up to the
semicolon-close-paren inside the comment text. -/
theorem c8_counterexample :
    parseModule "(module)".data = .ok [] (WatModule.mk [] []) ∧
    WsChunk ";; x;)\n".data ∧
    parseModule "(;; x;)\nmodule)".data = .err :=
  ⟨rfl, WsChunk.line " x;)".data (by decide), rfl⟩

/-- Claim C8 as amended: whitespace-and-comment insertion at token
boundaries preserves the parse, provided the inserted sequence does not
begin with a semicolon directly after an opening parenthesis (otherwise
the two characters merge into a block-comment opener, see the
counterexample) and provided the separators between sigil-free adjacent
word tokens stay nonempty (insertion never empties them).  Part one: the
skipper absorbs any whitespace-and-comment sequence wherever it runs.
Part two: for the representative module exercising every construct of the
grammar (module, function, parameter, result, instruction and identifier
body tokens, export), parsing with arbitrary admissible chunks at every
one of its 27 token boundaries always yields the same module tree. -/
theorem c8_insertion_amended :
    (∀ (a t : List Char), Wsc a → sp (a ++ t) = sp t) ∧
    (∀ (c0 c1 c2 c3 c4 c5 c6 c7 c8 c9 c10 c11 c12 c13 c14 c15 c16 c17 c18
       c19 c20 c21 c22 c23 c24 c25 c26 : List Char),
      Wsc c0 → Wsc c1 → Wsc c2 → Wsc c3 → Wsc c4 → Wsc c5 → Wsc c6 →
      Wsc c7 → Wsc c8 → Wsc c9 → Wsc c10 → Wsc c11 → Wsc c12 → Wsc c13 →
      Wsc c14 → Wsc c15 → Wsc c16 → Wsc c17 → Wsc c18 → Wsc c19 →
      Wsc c20 → Wsc c21 → Wsc c22 → Wsc c23 → Wsc c24 → Wsc c25 →
      Wsc c26 →
      c1.head? ≠ some ';' → c3.head? ≠ some ';' → c6.head? ≠ some ';' →
      c11.head? ≠ some ';' → c18.head? ≠ some ';' → c21.head? ≠ some ';' →
      c8 ≠ [] → c22 ≠ [] →
      parseModule (c0 ++ ('(' :: (c1 ++ ("module".data ++ (c2 ++ ('(' :: (c3 ++ ("func".data ++ (c4 ++ ('$' :: ("add".data ++ (c5 ++ ('(' :: (c6 ++ ("param".data ++ (c7 ++ ('$' :: ("p0".data ++ (c8 ++ ("i32".data ++ (c9 ++ (')' :: (c10 ++ ('(' :: (c11 ++ ("result".data ++ (c12 ++ ("i32".data ++ (c13 ++ (')' :: (c14 ++ ("local.get".data ++ (c15 ++ ('$' :: ("p0".data ++ (c16 ++ (')' :: (c17 ++ ('(' :: (c18 ++ ("export".data ++ (c19 ++ ('"' :: ("add".data ++ ('"' :: (c20 ++ ('(' :: (c21 ++ ("func".data ++ (c22 ++ ('$' :: ("add".data ++ (c23 ++ (')' :: (c24 ++ (')' :: (c25 ++ (')' :: (c26))))))))))))))))))))))))))))))))))))))))))))))))))))))))))) =
        .ok [] (WatModule.mk [(Func.mk "add".data [("p0".data, ValType.i32)] (some ValType.i32) [Expr.instr .localGet, Expr.ident "p0".data])] [(Export.mk "add".data "add".data .func)])) := by
  constructor
  · exact fun a t h => sp_wsc h t
  · intro c0 c1 c2 c3 c4 c5 c6 c7 c8 c9 c10 c11 c12 c13 c14 c15 c16 c17
      c18 c19 c20 c21 c22 c23 c24 c25 c26
    intro w0 w1 w2 w3 w4 w5 w6 w7 w8 w9 w10 w11 w12 w13 w14 w15 w16 w17
      w18 w19 w20 w21 w22 w23 w24 w25 w26
    intro p1 p3 p6 p11 p18 p21 ne8 ne22
    exact pmodule_family w0 w1 w2 w3 w4 w5 w6 w7 w8 w9 w10 w11 w12 w13 w14 w15 w16 w17 w18 w19 w20 w21 w22 w23 w24 w25 w26 p1 p3 p6 p11 p18 p21 ne8 ne22

/-- Witness for the amended C8 with a single space in every boundary. -/
theorem c8_insertion_amended_witness :
    parseModule ([' '] ++ ('(' :: ([' '] ++ ("module".data ++ ([' '] ++ ('(' :: ([' '] ++ ("func".data ++ ([' '] ++ ('$' :: ("add".data ++ ([' '] ++ ('(' :: ([' '] ++ ("param".data ++ ([' '] ++ ('$' :: ("p0".data ++ ([' '] ++ ("i32".data ++ ([' '] ++ (')' :: ([' '] ++ ('(' :: ([' '] ++ ("result".data ++ ([' '] ++ ("i32".data ++ ([' '] ++ (')' :: ([' '] ++ ("local.get".data ++ ([' '] ++ ('$' :: ("p0".data ++ ([' '] ++ (')' :: ([' '] ++ ('(' :: ([' '] ++ ("export".data ++ ([' '] ++ ('"' :: ("add".data ++ ('"' :: ([' '] ++ ('(' :: ([' '] ++ ("func".data ++ ([' '] ++ ('$' :: ("add".data ++ ([' '] ++ (')' :: ([' '] ++ (')' :: ([' '] ++ (')' :: ([' ']))))))))))))))))))))))))))))))))))))))))))))))))))))))))))) =
      .ok [] (WatModule.mk [(Func.mk "add".data [("p0".data, ValType.i32)] (some ValType.i32) [Expr.instr .localGet, Expr.ident "p0".data])] [(Export.mk "add".data "add".data .func)]) := by
  have hw : Wsc [' '] := by
    have := Wsc.cons (WsChunk.ws ' ' (by decide)) Wsc.nil
    simpa using this
  exact c8_insertion_amended.2 [' '] [' '] [' '] [' '] [' '] [' '] [' ']
    [' '] [' '] [' '] [' '] [' '] [' '] [' '] [' '] [' '] [' '] [' ']
    [' '] [' '] [' '] [' '] [' '] [' '] [' '] [' '] [' ']
    hw hw hw hw hw hw hw hw hw hw hw hw hw hw hw hw hw hw hw hw hw hw hw
    hw hw hw hw
    (by decide) (by decide) (by decide) (by decide) (by decide) (by decide)
    (by decide) (by decide)
